import Mathlib

/-!
Verification of the travel-aggregation core of the AIML repository.

The development shallowly embeds the JavaScript services
(`CacheService`, `FlightsService`, `HotelsService`, `AIPlannerService`)
as pure Lean functions.  JavaScript numbers are idealised as rationals
(`ℚ`), `Math.floor` as `Int.floor`, and asynchronous external calls
(redis, upstream HTTP providers, the text-generation backend) are
modelled by passing their observable outcome — success value or thrown
error — as an explicit argument of type `Except`/`Option`.  Nondeterminism
from `Math.random` and the wall clock is modelled by environment records
whose fields supply the drawn values.
-/

/-- Truthiness-carrying JavaScript value stored in the cache.  `obj` stands
for any object/array value (always truthy); the `id` only serves to
distinguish distinct objects. -/
inductive JsData where
  | null
  | bool (b : Bool)
  | num (q : ℚ)
  | str (s : String)
  | obj (id : ℕ)
  deriving DecidableEq

/-- JavaScript truthiness of a `JsData` value. -/
def JsData.truthy : JsData → Bool
  | .null => false
  | .bool b => b
  | .num q => decide (q ≠ 0)
  | .str s => decide (s ≠ "")
  | .obj _ => true

namespace CacheService

/-- The entry `CacheService.set` serialises into redis:
`{ data, timestamp: Date.now(), ttl: ttl * 1000, source: 'cache' }`. -/
structure CacheEntry where
  data : JsData
  timestamp : ℕ
  ttl : ℕ
  source : String
  deriving DecidableEq

/-- The redis key/value store, observed through the keys the service uses. -/
abbrev Store := List (String × CacheEntry)

/-- Environment of one service call: the clock (`Date.now()`), and whether
each underlying redis operation throws (`getFails` models a failure of
`redis.get`, `setFails` of `redis.setex`, `delFails` of `redis.del`,
`clearFails` of the `clearExpired` body). -/
structure CacheEnv where
  now : ℕ
  getFails : Bool
  setFails : Bool
  delFails : Bool
  clearFails : Bool

/-- First entry stored under `key` (redis keys are unique). -/
def storeLookup (store : Store) (key : String) : Option CacheEntry :=
  (store.find? (fun p => p.1 = key)).map (·.2)

/-- Remove the entry stored under `key`. -/
def storeRemove (store : Store) (key : String) : Store :=
  store.filter (fun p => ¬ p.1 = key)

/-- Overwrite the entry stored under `key` (redis `SETEX`). -/
def storeInsert (store : Store) (key : String) (e : CacheEntry) : Store :=
  (key, e) :: storeRemove store key

/-- `isExpired(cacheEntry)`: `Date.now() - cacheEntry.timestamp > cacheEntry.ttl`. -/
def isExpired (now : ℕ) (e : CacheEntry) : Bool :=
  decide (now - e.timestamp > e.ttl)

/-- `delete(key)`: deletes the key, catching redis errors (returns `false`
and leaves the store unchanged when `redis.del` throws). -/
def delete (env : CacheEnv) (store : Store) (key : String) : Bool × Store :=
  if env.delFails then (false, store) else (true, storeRemove store key)

/-- `get(key)`: returns the cached data if present and unexpired; an expired
entry is deleted as a side effect of the read and `null` is returned; any
redis error is caught and turned into `null`. -/
def get (env : CacheEnv) (store : Store) (key : String) : Option JsData × Store :=
  if env.getFails then (none, store)
  else
    match storeLookup store key with
    | some parsed =>
        if isExpired env.now parsed then
          (none, (delete env store key).2)
        else
          (some parsed.data, store)
    | none => (none, store)

/-- `set(key, data, ttl)`: stores `{data, timestamp: Date.now(),
ttl: ttl * 1000, source: 'cache'}`; a redis error is caught and reported as
a `false` return value, never thrown. -/
def set (env : CacheEnv) (store : Store) (key : String) (data : JsData) (ttl : ℕ) :
    Bool × Store :=
  if env.setFails then (false, store)
  else (true, storeInsert store key
    { data := data, timestamp := env.now, ttl := ttl * 1000, source := "cache" })

/-- `clearExpired()`: the body only logs "Cache cleanup completed" and
returns `true`; it removes no entries.  A thrown error is caught and
reported as `false`. -/
def clearExpired (env : CacheEnv) (store : Store) : Bool × Store :=
  if env.clearFails then (false, store) else (true, store)

/-- The `{ data, cached, source }` envelope `getOrSet` resolves with. -/
structure CacheResult where
  data : JsData
  cached : Bool
  source : String
  deriving DecidableEq

/-- Truthiness of the value `get` returned (`null` when absent). -/
def jsTruthyOpt : Option JsData → Bool
  | none => false
  | some d => d.truthy

/-- `getOrSet(key, fetchFunction, ttl)`.  The producer is `await`ed at most
twice (the second time only on the catch path), so its two possible
invocation outcomes are passed as `p₁` and `p₂`.  Returns the resolved
envelope (`none` models resolving with `null`) and the resulting store. -/
def getOrSet (env : CacheEnv) (store : Store) (key : String)
    (p₁ p₂ : Except String JsData) (ttl : ℕ) : Option CacheResult × Store :=
  let r := get env store key
  if jsTruthyOpt r.1 then
    (some { data := r.1.getD .null, cached := true, source := "cache" }, r.2)
  else
    match p₁ with
    | .error _ =>
        match p₂ with
        | .ok d => (some { data := d, cached := false, source := "api-fallback" }, r.2)
        | .error _ => (none, r.2)
    | .ok freshData =>
        if freshData.truthy then
          let w := set env r.2 key freshData ttl
          (some { data := freshData, cached := false, source := "api" }, w.2)
        else
          (none, r.2)

end CacheService

namespace CacheService

theorem storeLookup_insert (store : Store) (key : String) (e : CacheEntry) :
    storeLookup (storeInsert store key e) key = some e := by
  simp [storeLookup, storeInsert, List.find?]

end CacheService

open CacheService in
/-- Claim C7 counterexample: an entry read exactly when `now - storedAt`
equals `ttlMillis` is returned by `get`, although `now - storedAt < ttlMillis`
is false, so "the entry is valid iff `now - storedAt < ttlMillis`" does not
hold of the code (`isExpired` uses a strict `>`). -/
theorem C7_counterexample :
    get ⟨1000, false, false, false, false⟩ [("k", ⟨.str "v", 0, 1000, "cache"⟩)] "k"
      = (some (.str "v"), [("k", ⟨.str "v", 0, 1000, "cache"⟩)]) ∧
    ¬ ((1000 : ℕ) - 0 < 1000) := by
  constructor
  · rfl
  · decide

open CacheService in
/-- Claim C7 (amended): an entry is valid iff `now - storedAt ≤ ttlMillis`
(non-strict): a `get` performed strictly after the TTL has elapsed returns
absent and deletes the expired entry as a side effect of the read, a `get`
at or before the TTL boundary returns the stored data, and a `set` followed
by a `get` within the TTL window returns the stored value. -/
theorem C7_cache_expiry :
    (∀ (env : CacheEnv) (store : Store) (key : String) (e : CacheEntry),
      env.getFails = false → env.delFails = false → storeLookup store key = some e →
        (env.now - e.timestamp ≤ e.ttl → get env store key = (some e.data, store)) ∧
        (env.now - e.timestamp > e.ttl → get env store key = (none, storeRemove store key)))
    ∧
    (∀ (env₁ env₂ : CacheEnv) (store : Store) (key : String) (d : JsData) (ttl : ℕ),
      env₁.setFails = false → env₂.getFails = false → env₂.now - env₁.now ≤ ttl * 1000 →
        get env₂ (set env₁ store key d ttl).2 key = (some d, (set env₁ store key d ttl).2)) := by
  constructor
  · intro env store key e hg hd hl
    constructor
    · intro hle
      have hexp : isExpired env.now e = false := by
        simp [isExpired]; omega
      simp [CacheService.get, hg, hl, hexp]
    · intro hgt
      have hexp : isExpired env.now e = true := by
        simp [isExpired]; omega
      simp [CacheService.get, hg, hl, hexp, delete, hd]
  · intro env₁ env₂ store key d ttl hs hg hwin
    have hset : (set env₁ store key d ttl).2 =
        storeInsert store key ⟨d, env₁.now, ttl * 1000, "cache"⟩ := by
      simp [CacheService.set, hs]
    have hexp : isExpired env₂.now (⟨d, env₁.now, ttl * 1000, "cache"⟩ : CacheEntry) = false := by
      simp [isExpired]; omega
    rw [hset]
    simp [CacheService.get, hg, storeLookup_insert, hexp]

open CacheService in
/-- Claim C7 witness: concrete instances of the amended expiry contract —
a read at the boundary and within the window returns the value, a read one
millisecond past the boundary deletes and returns absent, and a fresh `set`
is visible to an immediate `get`. -/
theorem C7_witness :
    get ⟨1500, false, false, false, false⟩ [("k", ⟨.num 7, 500, 1000, "cache"⟩)] "k"
      = (some (.num 7), [("k", ⟨.num 7, 500, 1000, "cache"⟩)]) ∧
    get ⟨1501, false, false, false, false⟩ [("k", ⟨.num 7, 500, 1000, "cache"⟩)] "k"
      = (none, storeRemove [("k", ⟨.num 7, 500, 1000, "cache"⟩)] "k") ∧
    get ⟨5, false, false, false, false⟩
        (set ⟨5, false, false, false, false⟩ [] "k" (.str "w") 60).2 "k"
      = (some (.str "w"), (set ⟨5, false, false, false, false⟩ [] "k" (.str "w") 60).2) := by
  refine ⟨?_, ?_, ?_⟩
  · exact ((C7_cache_expiry.1 ⟨1500, false, false, false, false⟩
      [("k", ⟨.num 7, 500, 1000, "cache"⟩)] "k" ⟨.num 7, 500, 1000, "cache"⟩
      rfl rfl rfl).1 (by decide))
  · exact ((C7_cache_expiry.1 ⟨1501, false, false, false, false⟩
      [("k", ⟨.num 7, 500, 1000, "cache"⟩)] "k" ⟨.num 7, 500, 1000, "cache"⟩
      rfl rfl rfl).2 (by decide))
  · exact (C7_cache_expiry.2 ⟨5, false, false, false, false⟩ ⟨5, false, false, false, false⟩
      [] "k" (.str "w") 60 rfl rfl (by decide))

open CacheService in
/-- Claim C8 counterexample: a store holding an entry that the lazy-eviction
predicate of `get` flags as expired is left unchanged by `clearExpired`, so
the removal criteria of `clearExpired` and of `get` are not identical. -/
theorem C8_counterexample :
    clearExpired ⟨10000, false, false, false, false⟩ [("k", ⟨.str "v", 0, 5, "cache"⟩)]
      = (true, [("k", ⟨.str "v", 0, 5, "cache"⟩)]) ∧
    isExpired 10000 ⟨.str "v", 0, 5, "cache"⟩ = true := by
  constructor
  · rfl
  · decide

open CacheService in
/-- Claim C8 (amended): `clearExpired` removes no entries at all — its body
only logs and returns `true`, leaving the store untouched — while `get`
lazily evicts exactly the entries satisfying `isExpired`; the two removal
criteria therefore coincide only on stores with no expired entries. -/
theorem C8_clearExpired_noop :
    (∀ (env : CacheEnv) (store : Store), env.clearFails = false →
      clearExpired env store = (true, store))
    ∧
    (∀ (env : CacheEnv) (store : Store) (key : String) (e : CacheEntry),
      env.getFails = false → env.delFails = false → storeLookup store key = some e →
      isExpired env.now e = true →
      get env store key = (none, storeRemove store key)) := by
  constructor
  · intro env store hc
    simp [clearExpired, hc]
  · intro env store key e hg hd hl he
    simp [CacheService.get, hg, hl, he, delete, hd]

open CacheService in
/-- Claim C8 witness: concrete instances — `clearExpired` leaves a store with
an expired entry unchanged, and `get` evicts that same entry. -/
theorem C8_witness :
    clearExpired ⟨10000, false, false, false, false⟩ [("x", ⟨.num 1, 0, 5, "cache"⟩)]
      = (true, [("x", ⟨.num 1, 0, 5, "cache"⟩)]) ∧
    get ⟨10000, false, false, false, false⟩ [("x", ⟨.num 1, 0, 5, "cache"⟩)] "x"
      = (none, storeRemove [("x", ⟨.num 1, 0, 5, "cache"⟩)] "x") := by
  constructor
  · exact C8_clearExpired_noop.1 ⟨10000, false, false, false, false⟩
      [("x", ⟨.num 1, 0, 5, "cache"⟩)] rfl
  · exact C8_clearExpired_noop.2 ⟨10000, false, false, false, false⟩
      [("x", ⟨.num 1, 0, 5, "cache"⟩)] "x" ⟨.num 1, 0, 5, "cache"⟩ rfl rfl rfl (by decide)

open CacheService in
/-- Claim C6 counterexample: when writing the freshly produced value to the
store fails (`setFails`), `getOrSet` returns the value tagged
`source = "api"` — the same tag as the successful-write path — not
`origin = "bypass"`; no `bypass` tag exists in the code. -/
theorem C6_counterexample :
    (getOrSet ⟨5, false, true, false, false⟩ [] "k" (.ok (.str "v")) (.error "unused") 60).1
      = some ⟨.str "v", false, "api"⟩ ∧
    "api" ≠ "bypass" := by
  constructor
  · rfl
  · decide

open CacheService in
/-- Claim C6 (amended): on a warm unexpired hit with truthy data, `getOrSet`
returns the cached data with `cached = true` for every producer outcome
(the producer is not consulted); on a cold miss it uses the first producer
outcome, stores a truthy result under the given TTL (visible to an
immediate `get`), and returns it with `cached = false` and
`source = "api"`; and when writing to the store fails the freshly produced
value is still returned — never a request failure — tagged with the same
`source = "api"` (the write failure is swallowed inside `set`). -/
theorem C6_getOrSet_contract :
    (∀ (env : CacheEnv) (store : Store) (key : String) (e : CacheEntry)
        (p₁ p₂ : Except String JsData) (ttl : ℕ),
      env.getFails = false → storeLookup store key = some e →
      isExpired env.now e = false → e.data.truthy = true →
        getOrSet env store key p₁ p₂ ttl = (some ⟨e.data, true, "cache"⟩, store))
    ∧
    (∀ (env : CacheEnv) (store : Store) (key : String) (d : JsData)
        (p₂ : Except String JsData) (ttl : ℕ),
      env.getFails = false → env.setFails = false → storeLookup store key = none →
      d.truthy = true →
        getOrSet env store key (.ok d) p₂ ttl
          = (some ⟨d, false, "api"⟩, storeInsert store key ⟨d, env.now, ttl * 1000, "cache"⟩) ∧
        get env (storeInsert store key ⟨d, env.now, ttl * 1000, "cache"⟩) key
          = (some d, storeInsert store key ⟨d, env.now, ttl * 1000, "cache"⟩))
    ∧
    (∀ (env : CacheEnv) (store : Store) (key : String) (d : JsData)
        (p₂ : Except String JsData) (ttl : ℕ),
      env.getFails = false → env.setFails = true → storeLookup store key = none →
      d.truthy = true →
        getOrSet env store key (.ok d) p₂ ttl = (some ⟨d, false, "api"⟩, store)) := by
  refine ⟨?_, ?_, ?_⟩
  · intro env store key e p₁ p₂ ttl hg hl hexp ht
    simp [getOrSet, CacheService.get, hg, hl, hexp, jsTruthyOpt, ht]
  · intro env store key d p₂ ttl hg hs hl ht
    constructor
    · simp [getOrSet, CacheService.get, hg, hl, jsTruthyOpt, ht, CacheService.set, hs]
    · have hexp : isExpired env.now (⟨d, env.now, ttl * 1000, "cache"⟩ : CacheEntry) = false := by
        simp [isExpired]
      simp [CacheService.get, hg, storeLookup_insert, hexp]
  · intro env store key d p₂ ttl hg hs hl ht
    simp [getOrSet, CacheService.get, hg, hl, jsTruthyOpt, ht, CacheService.set, hs]

open CacheService in
/-- Claim C6 witness: concrete instances of the three branches of the
amended read-through contract (warm hit, cold miss with successful write,
cold miss with failing write). -/
theorem C6_witness :
    getOrSet ⟨50, false, false, false, false⟩ [("k", ⟨.num 3, 0, 1000, "cache"⟩)] "k"
        (.error "never") (.error "never") 60
      = (some ⟨.num 3, true, "cache"⟩, [("k", ⟨.num 3, 0, 1000, "cache"⟩)]) ∧
    getOrSet ⟨7, false, false, false, false⟩ [] "k" (.ok (.str "fresh")) (.error "never") 60
      = (some ⟨.str "fresh", false, "api"⟩,
         storeInsert [] "k" ⟨.str "fresh", 7, 60 * 1000, "cache"⟩) ∧
    getOrSet ⟨7, false, true, false, false⟩ [] "k" (.ok (.str "fresh")) (.error "never") 60
      = (some ⟨.str "fresh", false, "api"⟩, []) := by
  refine ⟨?_, ?_, ?_⟩
  · exact C6_getOrSet_contract.1 ⟨50, false, false, false, false⟩
      [("k", ⟨.num 3, 0, 1000, "cache"⟩)] "k" ⟨.num 3, 0, 1000, "cache"⟩
      (.error "never") (.error "never") 60 rfl rfl (by decide) (by decide)
  · exact (C6_getOrSet_contract.2.1 ⟨7, false, false, false, false⟩ [] "k" (.str "fresh")
      (.error "never") 60 rfl rfl rfl (by decide)).1
  · exact C6_getOrSet_contract.2.2 ⟨7, false, true, false, false⟩ [] "k" (.str "fresh")
      (.error "never") 60 rfl rfl rfl (by decide)

open CacheService in
/-- Claim C10: a producer that resolves to a falsy value makes `getOrSet`
skip the store write and resolve with `null` (no `{data, cached, source}`
envelope), and a cached falsy value is treated as a miss: the producer is
invoked and its truthy result is stored and returned with `cached = false`,
even though the store holds a live (unexpired) entry for the key. -/
theorem C10_falsy_semantics :
    (∀ (env : CacheEnv) (store : Store) (key : String) (d : JsData)
        (p₂ : Except String JsData) (ttl : ℕ),
      env.getFails = false → storeLookup store key = none → d.truthy = false →
        getOrSet env store key (.ok d) p₂ ttl = (none, store))
    ∧
    (∀ (env : CacheEnv) (store : Store) (key : String) (e : CacheEntry) (d : JsData)
        (p₂ : Except String JsData) (ttl : ℕ),
      env.getFails = false → env.setFails = false → storeLookup store key = some e →
      isExpired env.now e = false → e.data.truthy = false → d.truthy = true →
        getOrSet env store key (.ok d) p₂ ttl
          = (some ⟨d, false, "api"⟩, storeInsert store key ⟨d, env.now, ttl * 1000, "cache"⟩)) := by
  constructor
  · intro env store key d p₂ ttl hg hl ht
    simp [getOrSet, CacheService.get, hg, hl, jsTruthyOpt, ht]
  · intro env store key e d p₂ ttl hg hs hl hexp hf ht
    simp [getOrSet, CacheService.get, hg, hl, hexp, jsTruthyOpt, hf, ht, CacheService.set, hs]

open CacheService in
/-- Claim C10 witness: the producer result `num 0` (falsy) yields `null` and
no write; a cached empty string (falsy, live entry) triggers a fresh
producer call whose result is stored and returned. -/
theorem C10_witness :
    getOrSet ⟨3, false, false, false, false⟩ [] "k" (.ok (.num 0)) (.error "never") 60
      = (none, []) ∧
    getOrSet ⟨3, false, false, false, false⟩ [("k", ⟨.str "", 0, 9000, "cache"⟩)] "k"
        (.ok (.num 5)) (.error "never") 60
      = (some ⟨.num 5, false, "api"⟩,
         storeInsert [("k", ⟨.str "", 0, 9000, "cache"⟩)] "k" ⟨.num 5, 3, 60 * 1000, "cache"⟩) := by
  constructor
  · exact C10_falsy_semantics.1 ⟨3, false, false, false, false⟩ [] "k" (.num 0)
      (.error "never") 60 rfl rfl (by decide)
  · exact C10_falsy_semantics.2 ⟨3, false, false, false, false⟩
      [("k", ⟨.str "", 0, 9000, "cache"⟩)] "k" ⟨.str "", 0, 9000, "cache"⟩ (.num 5)
      (.error "never") 60 rfl rfl rfl (by decide) (by decide) (by decide)

/-- Insert `a` into `l` before the first element `b` with `le a b` false…
auxiliary for `sortWith`. -/
def insertLe {α : Type} (le : α → α → Bool) (a : α) : List α → List α
  | [] => [a]
  | b :: bs => if le a b then a :: b :: bs else b :: insertLe le a bs

/-- Insertion sort; models `Array.prototype.sort` with a numeric comparator
(the claims only use that sorting permutes the list). -/
def sortWith {α : Type} (le : α → α → Bool) : List α → List α
  | [] => []
  | a :: as => insertLe le a (sortWith le as)

theorem mem_insertLe {α : Type} (le : α → α → Bool) (a x : α) (l : List α) :
    x ∈ insertLe le a l ↔ x = a ∨ x ∈ l := by
  induction l with
  | nil => simp [insertLe]
  | cons b bs ih =>
      simp only [insertLe]
      split
      · simp
      · simp [ih]; tauto

theorem mem_sortWith {α : Type} (le : α → α → Bool) (x : α) (l : List α) :
    x ∈ sortWith le l ↔ x ∈ l := by
  induction l with
  | nil => simp [sortWith]
  | cons a as ih => simp [sortWith, mem_insertLe, ih]

theorem length_insertLe {α : Type} (le : α → α → Bool) (a : α) (l : List α) :
    (insertLe le a l).length = l.length + 1 := by
  induction l with
  | nil => rfl
  | cons b bs ih =>
      simp only [insertLe]
      split <;> simp [ih]

theorem length_sortWith {α : Type} (le : α → α → Bool) (l : List α) :
    (sortWith le l).length = l.length := by
  induction l with
  | nil => rfl
  | cons a as ih => simp [sortWith, length_insertLe, ih]

/-- Generic seen-set de-duplication keeping first occurrences; models the
`removeDuplicate*` helpers built on a JS `Set` of string keys. -/
def dedupByAux {α : Type} (key : α → String) : List String → List α → List α
  | _, [] => []
  | seen, f :: fs =>
      if key f ∈ seen then dedupByAux key seen fs
      else f :: dedupByAux key (key f :: seen) fs

def dedupBy {α : Type} (key : α → String) (l : List α) : List α :=
  dedupByAux key [] l

theorem mem_of_mem_dedupByAux {α : Type} (key : α → String) (seen : List String)
    (l : List α) (x : α) (h : x ∈ dedupByAux key seen l) : x ∈ l := by
  induction l generalizing seen with
  | nil => simpa [dedupByAux] using h
  | cons f fs ih =>
      simp only [dedupByAux] at h
      split at h
      · exact List.mem_cons_of_mem _ (ih _ h)
      · rcases List.mem_cons.1 h with h | h
        · simp [h]
        · exact List.mem_cons_of_mem _ (ih _ h)

theorem dedupBy_cons {α : Type} (key : α → String) (a : α) (l : List α) :
    dedupBy key (a :: l) = a :: dedupByAux key [key a] l := by
  simp [dedupBy, dedupByAux]

/-- `Array.from(new Set(list))`: first occurrences in order. -/
def dedupFirst : List String → List String
  | [] => []
  | s :: ss => s :: dedupFirst (ss.filter (fun t => ¬ t = s))
termination_by l => l.length
decreasing_by
  simp only [List.length_cons]
  exact Nat.lt_succ_of_le (List.length_filter_le _ _)

theorem dedupFirst_all_eq {l : List String} {s : String}
    (h : ∀ x ∈ l, x = s) (hne : l ≠ []) : dedupFirst l = [s] := by
  match l with
  | [] => exact absurd rfl hne
  | a :: t =>
      have ha : a = s := h a (by simp)
      have hfilter : t.filter (fun x => ¬ x = a) = [] := by
        rw [List.filter_eq_nil]
        intro x hx
        have := h x (List.mem_cons_of_mem _ hx)
        simp [this, ha]
      rw [dedupFirst, hfilter, dedupFirst, ha]

/-- A provider call outcome that contributed no items: it either threw, or
resolved with an empty item list. -/
def yieldsNone {α : Type} : Except String (List α) → Prop :=
  fun x => ∀ l, x = .ok l → l = []

/-- A single recorded provider failure: `{ provider, error: error.message }`. -/
structure ProviderError where
  provider : String
  error : String
  deriving DecidableEq

namespace FlightsService

/-- The fields of a transformed flight record that the aggregation logic in
`fetchFlightsFromAPIs` consults: the de-duplication key components
(`airline`, `flightNumber`, `departure.time`), the sort key (`price`), and
the `source` tag.  The remaining transformed fields (airports, duration,
stops, aircraft, …) never influence the aggregation and are not modelled. -/
structure FlightCore where
  id : String
  airline : String
  flightNumber : String
  depTime : String
  price : ℚ
  deriving DecidableEq

/-- A flight record with its provider `source` tag. -/
structure Flight where
  id : String
  airline : String
  flightNumber : String
  depTime : String
  price : ℚ
  source : String
  deriving DecidableEq

/-- The per-provider transforms (`transformAmadeusFlight`,
`transformGoogleFlight`) each stamp a literal `source` tag on every item
they produce. -/
def stampSource (src : String) (f : FlightCore) : Flight :=
  ⟨f.id, f.airline, f.flightNumber, f.depTime, f.price, src⟩

/-- `Math.random()` draws used by `generateFallbackFlights`. -/
structure Env where
  randNum : ℕ → ℕ
  randPrice : ℕ → ℕ

def airlines : List String :=
  ["SkyLine Airways", "Global Airlines", "Premium Air", "Express Jet"]

/-- `generateFallbackFlights(searchParams)`: five synthetic flights, every
one tagged `source: 'fallback'`. -/
def generateFallbackFlights (env : Env) (origin destination : String) : List Flight :=
  (List.range 5).map (fun i =>
    let airline := ((airlines.get? (i % airlines.length)).getD "")
    { id := "fallback-" ++ toString (i + 1),
      airline := airline,
      flightNumber := (airline.take 2).toUpper ++ toString (env.randNum i + 1000),
      depTime := "08:00",
      price := ((env.randPrice i + 300 : ℕ) : ℚ),
      source := "fallback" })

def flightKey (f : Flight) : String :=
  f.airline ++ "-" ++ f.flightNumber ++ "-" ++ f.depTime

def removeDuplicateFlights (l : List Flight) : List Flight :=
  dedupBy flightKey l

def getSourcesUsed (l : List Flight) : List String :=
  dedupFirst (l.map (·.source))

/-- First cascade step: Amadeus (its transform stamps `source: 'amadeus'`);
a thrown error is recorded, an empty result list contributes nothing. -/
def step1 (amadeus : Except String (List FlightCore)) :
    List Flight × List ProviderError :=
  match amadeus with
  | .ok l => (l.map (stampSource "amadeus"), [])
  | .error e => ([], [⟨"Amadeus", e⟩])

/-- Second step: Skyscanner, attempted only when fewer than 5 results so
far.  The source's `searchSkyscanner` always returns `[]` after the session
call (results would need polling), so a successful call contributes no
items; a thrown error is recorded. -/
def step2 (sky : Except String Unit) (p : List Flight × List ProviderError) :
    List Flight × List ProviderError :=
  if p.1.length < 5 then
    match sky with
    | .ok _ => p
    | .error e => (p.1, p.2 ++ [⟨"Skyscanner", e⟩])
  else p

/-- Third step: Google Flights (transform stamps `source: 'google'`),
attempted only when fewer than 3 results so far. -/
def step3 (google : Except String (List FlightCore))
    (p : List Flight × List ProviderError) : List Flight × List ProviderError :=
  if p.1.length < 3 then
    match google with
    | .ok l => (p.1 ++ l.map (stampSource "google"), p.2)
    | .error e => (p.1, p.2 ++ [⟨"Google Flights", e⟩])
  else p

/-- The aggregate result `{flights, totalFound, sources, errors, fallbackUsed}`. -/
structure FlightsResult where
  flights : List Flight
  totalFound : ℕ
  sources : List String
  errors : Option (List ProviderError)
  fallbackUsed : Bool

/-- `fetchFlightsFromAPIs(searchParams)`: priority cascade
Amadeus → Skyscanner → Google, synthetic fallback when zero items were
collected, de-duplication, ascending price sort, top-20 truncation. -/
def fetchFlightsFromAPIs (env : Env) (amadeus : Except String (List FlightCore))
    (sky : Except String Unit) (google : Except String (List FlightCore))
    (origin destination : String) : FlightsResult :=
  let p := step3 google (step2 sky (step1 amadeus))
  let results :=
    if p.1.length = 0 then p.1 ++ generateFallbackFlights env origin destination
    else p.1
  let uniqueResults := removeDuplicateFlights results
  let sortedResults := sortWith (fun a b => decide (a.price ≤ b.price)) uniqueResults
  { flights := sortedResults.take 20,
    totalFound := sortedResults.length,
    sources := getSourcesUsed results,
    errors := if p.2.length > 0 then some p.2 else none,
    fallbackUsed := results.isEmpty || results.any (fun f => f.source == "fallback") }

theorem step2_fst (sky : Except String Unit) (p : List Flight × List ProviderError) :
    (step2 sky p).1 = p.1 := by
  unfold step2
  split
  · cases sky <;> rfl
  · rfl

theorem mem_step3_fst (google : Except String (List FlightCore))
    (p : List Flight × List ProviderError) (f : Flight) (h : f ∈ (step3 google p).1) :
    f ∈ p.1 ∨ f.source = "google" := by
  unfold step3 at h
  split at h
  · cases google with
    | ok l =>
        rcases List.mem_append.1 h with h | h
        · exact Or.inl h
        · rcases List.mem_map.1 h with ⟨c, _, rfl⟩
          exact Or.inr rfl
    | error e => exact Or.inl h
  · exact Or.inl h

end FlightsService

namespace HotelsService

/-- The fields of a transformed hotel record the aggregation logic consults:
the de-duplication key components (`name`, `location`), the sort key
(`pricePerNight`), and the `source` tag; the remaining transformed fields
(rating, amenities, coordinates, …) never influence `fetchHotelsFromAPIs`
and are not modelled. -/
structure HotelCore where
  id : String
  name : String
  location : String
  pricePerNight : ℚ
  deriving DecidableEq

/-- A hotel record with its provider `source` tag. -/
structure Hotel where
  id : String
  name : String
  location : String
  pricePerNight : ℚ
  source : String
  deriving DecidableEq

/-- The per-provider transforms (`transformBookingHotel`,
`transformExpediaHotel`, `transformAirbnbListing`) each stamp a literal
`source` tag on every produced item. -/
def stampSource (src : String) (h : HotelCore) : Hotel :=
  ⟨h.id, h.name, h.location, h.pricePerNight, src⟩

/-- `Math.random()` draws used by `generateFallbackHotels`. -/
structure Env where
  randPrice : ℕ → ℕ

def hotelNames : List String :=
  ["Grand Hotel", "Seaside Resort", "City Center Inn", "Mountain View Lodge",
   "Business Hotel", "Boutique Hotel", "Luxury Resort", "Comfort Inn"]

/-- `generateFallbackHotels(searchParams)`: eight synthetic hotels, every
one tagged `source: 'fallback'`. -/
def generateFallbackHotels (env : Env) (destination : String) : List Hotel :=
  (List.range 8).map (fun i =>
    { id := "fallback-" ++ toString (i + 1),
      name := ((hotelNames.get? (i % hotelNames.length)).getD ""),
      location := destination ++ " City Center",
      pricePerNight := ((env.randPrice i + 80 : ℕ) : ℚ),
      source := "fallback" })

def hotelKey (h : Hotel) : String := h.name ++ "-" ++ h.location

def removeDuplicateHotels (l : List Hotel) : List Hotel :=
  dedupBy hotelKey l

def getSourcesUsed (l : List Hotel) : List String :=
  dedupFirst (l.map (·.source))

/-- First cascade step: Booking.com (transform stamps `source: 'booking'`). -/
def step1 (booking : Except String (List HotelCore)) :
    List Hotel × List ProviderError :=
  match booking with
  | .ok l => (l.map (stampSource "booking"), [])
  | .error e => ([], [⟨"Booking.com", e⟩])

/-- Second step: Expedia (stamps `source: 'expedia'`), attempted only when
fewer than 8 results so far. -/
def step2 (expedia : Except String (List HotelCore))
    (p : List Hotel × List ProviderError) : List Hotel × List ProviderError :=
  if p.1.length < 8 then
    match expedia with
    | .ok l => (p.1 ++ l.map (stampSource "expedia"), p.2)
    | .error e => (p.1, p.2 ++ [⟨"Expedia", e⟩])
  else p

/-- Third step: Airbnb (stamps `source: 'airbnb'`), attempted only when
fewer than 5 results so far. -/
def step3 (airbnb : Except String (List HotelCore))
    (p : List Hotel × List ProviderError) : List Hotel × List ProviderError :=
  if p.1.length < 5 then
    match airbnb with
    | .ok l => (p.1 ++ l.map (stampSource "airbnb"), p.2)
    | .error e => (p.1, p.2 ++ [⟨"Airbnb", e⟩])
  else p

/-- The aggregate result `{hotels, totalFound, sources, errors, fallbackUsed}`. -/
structure HotelsResult where
  hotels : List Hotel
  totalFound : ℕ
  sources : List String
  errors : Option (List ProviderError)
  fallbackUsed : Bool

/-- `fetchHotelsFromAPIs(searchParams)`: priority cascade
Booking → Expedia → Airbnb, synthetic fallback when zero items were
collected, de-duplication by name+location, ascending price sort, top-25
truncation. -/
def fetchHotelsFromAPIs (env : Env) (booking expedia airbnb : Except String (List HotelCore))
    (destination : String) : HotelsResult :=
  let p := step3 airbnb (step2 expedia (step1 booking))
  let results :=
    if p.1.length = 0 then p.1 ++ generateFallbackHotels env destination
    else p.1
  let uniqueResults := removeDuplicateHotels results
  let sortedResults := sortWith (fun a b => decide (a.pricePerNight ≤ b.pricePerNight)) uniqueResults
  { hotels := sortedResults.take 25,
    totalFound := sortedResults.length,
    sources := getSourcesUsed results,
    errors := if p.2.length > 0 then some p.2 else none,
    fallbackUsed := results.isEmpty || results.any (fun h => h.source == "fallback") }

theorem mem_step2_fst (expedia : Except String (List HotelCore))
    (p : List Hotel × List ProviderError) (h : Hotel) (hm : h ∈ (step2 expedia p).1) :
    h ∈ p.1 ∨ h.source = "expedia" := by
  unfold step2 at hm
  split at hm
  · cases expedia with
    | ok l =>
        rcases List.mem_append.1 hm with hm | hm
        · exact Or.inl hm
        · rcases List.mem_map.1 hm with ⟨c, _, rfl⟩
          exact Or.inr rfl
    | error e => exact Or.inl hm
  · exact Or.inl hm

theorem hotels_mem_step3_fst (airbnb : Except String (List HotelCore))
    (p : List Hotel × List ProviderError) (h : Hotel) (hm : h ∈ (step3 airbnb p).1) :
    h ∈ p.1 ∨ h.source = "airbnb" := by
  unfold step3 at hm
  split at hm
  · cases airbnb with
    | ok l =>
        rcases List.mem_append.1 hm with hm | hm
        · exact Or.inl hm
        · rcases List.mem_map.1 hm with ⟨c, _, rfl⟩
          exact Or.inr rfl
    | error e => exact Or.inl hm
  · exact Or.inl hm

end HotelsService

namespace FlightsService

/-- The tail of `fetchFlightsFromAPIs` after the cascade collected `p`. -/
def aggregateFrom (env : Env) (origin destination : String)
    (p : List Flight × List ProviderError) : FlightsResult :=
  let results :=
    if p.1.length = 0 then p.1 ++ generateFallbackFlights env origin destination
    else p.1
  let uniqueResults := removeDuplicateFlights results
  let sortedResults := sortWith (fun a b => decide (a.price ≤ b.price)) uniqueResults
  { flights := sortedResults.take 20,
    totalFound := sortedResults.length,
    sources := getSourcesUsed results,
    errors := if p.2.length > 0 then some p.2 else none,
    fallbackUsed := results.isEmpty || results.any (fun f => f.source == "fallback") }

theorem fetch_eq_aggregate (env : Env) (a : Except String (List FlightCore))
    (s : Except String Unit) (g : Except String (List FlightCore)) (o d : String) :
    fetchFlightsFromAPIs env a s g o d = aggregateFrom env o d (step3 g (step2 s (step1 a))) := rfl

theorem step3_fst_nil (g : Except String (List FlightCore))
    (q : List Flight × List ProviderError) (hq : q.1 = []) (hg : yieldsNone g) :
    (step3 g q).1 = [] := by
  unfold step3
  rw [hq]
  simp only [List.length_nil]
  split
  · cases g with
    | ok l => simp [hg l rfl, hq]
    | error e => simp [hq]
  · exact hq

theorem step3_fst_prefix (g : Except String (List FlightCore))
    (q : List Flight × List ProviderError) : ∃ r, (step3 g q).1 = q.1 ++ r := by
  unfold step3
  split
  · cases g with
    | ok l => exact ⟨l.map (stampSource "google"), rfl⟩
    | error e => exact ⟨[], by simp⟩
  · exact ⟨[], by simp⟩

theorem live_source (a : Except String (List FlightCore)) (s : Except String Unit)
    (g : Except String (List FlightCore)) (f : Flight)
    (hf : f ∈ (step3 g (step2 s (step1 a))).1) :
    f.source = "amadeus" ∨ f.source = "google" := by
  rcases mem_step3_fst g _ f hf with h | h
  · rw [step2_fst] at h
    cases a with
    | ok l =>
        simp only [step1] at h
        rcases List.mem_map.1 h with ⟨c, _, rfl⟩
        exact Or.inl rfl
    | error e => simp [step1] at h
  · exact Or.inr h

theorem aggregate_fallback (env : Env) (o d : String)
    (p : List Flight × List ProviderError) (hp : p.1 = []) :
    (aggregateFrom env o d p).fallbackUsed = true ∧
    (aggregateFrom env o d p).flights ≠ [] ∧
    (∀ f ∈ (aggregateFrom env o d p).flights, f.source = "fallback") ∧
    (aggregateFrom env o d p).sources = ["fallback"] := by
  have hsrcF : ∀ f ∈ generateFallbackFlights env o d, f.source = "fallback" := by
    intro f hf
    rcases List.mem_map.1 hf with ⟨i, _, rfl⟩
    rfl
  have hFne : generateFallbackFlights env o d ≠ [] := by
    intro hcon
    have : (generateFallbackFlights env o d).length = 5 := by
      simp [generateFallbackFlights]
    rw [hcon] at this
    simp at this
  have hresults :
      (if p.1.length = 0 then p.1 ++ generateFallbackFlights env o d else p.1)
        = generateFallbackFlights env o d := by
    simp [hp]
  refine ⟨?_, ?_, ?_, ?_⟩
  · show (_ || _) = true
    rw [hresults]
    obtain ⟨f0, t, hF⟩ := List.exists_cons_of_ne_nil hFne
    have : (generateFallbackFlights env o d).any (fun f => f.source == "fallback") = true := by
      rw [List.any_eq_true]
      exact ⟨f0, by rw [hF]; simp, by simp [hsrcF f0 (by rw [hF]; simp)]⟩
    simp [this]
  · show List.take 20 _ ≠ []
    rw [hresults]
    obtain ⟨f0, t, hF⟩ := List.exists_cons_of_ne_nil hFne
    have hdne : removeDuplicateFlights (generateFallbackFlights env o d) ≠ [] := by
      rw [hF, removeDuplicateFlights, dedupBy_cons]
      simp
    have hlen : 0 < (sortWith (fun a b => decide (a.price ≤ b.price))
        (removeDuplicateFlights (generateFallbackFlights env o d))).length := by
      rw [length_sortWith]
      exact List.length_pos.2 hdne
    intro hcon
    have := congrArg List.length hcon
    rw [List.length_take] at this
    simp only [List.length_nil] at this
    omega
  · intro f hf
    replace hf : f ∈ List.take 20 (sortWith (fun a b => decide (a.price ≤ b.price))
        (removeDuplicateFlights
          (if p.1.length = 0 then p.1 ++ generateFallbackFlights env o d else p.1))) := hf
    rw [hresults] at hf
    have hf1 := List.mem_of_mem_take hf
    have hf2 := (mem_sortWith _ _ _).1 hf1
    have hf3 := mem_of_mem_dedupByAux flightKey [] _ _ hf2
    exact hsrcF f hf3
  · show getSourcesUsed _ = _
    rw [hresults]
    apply dedupFirst_all_eq
    · intro x hx
      rcases List.mem_map.1 hx with ⟨f, hf, rfl⟩
      exact hsrcF f hf
    · simp [hFne]

theorem aggregate_live (env : Env) (o d : String)
    (p : List Flight × List ProviderError) (hp : p.1 ≠ [])
    (hsrc : ∀ f ∈ p.1, f.source = "amadeus" ∨ f.source = "google") :
    (aggregateFrom env o d p).fallbackUsed = false := by
  have hresults :
      (if p.1.length = 0 then p.1 ++ generateFallbackFlights env o d else p.1) = p.1 := by
    have : p.1.length ≠ 0 := by
      intro hcon
      exact hp (List.length_eq_zero.1 hcon)
    simp [this]
  show (_ || _) = false
  rw [hresults]
  have h1 : p.1.isEmpty = false := by
    obtain ⟨f0, t, hF⟩ := List.exists_cons_of_ne_nil hp
    rw [hF]; rfl
  have h2 : p.1.any (fun f => f.source == "fallback") = false := by
    rw [List.any_eq_false]
    intro f hf
    rcases hsrc f hf with h | h <;> simp [h]
  rw [h1, h2]
  rfl

end FlightsService

namespace FlightsService

theorem live_nonempty (a : Except String (List FlightCore)) (s : Except String Unit)
    (g : Except String (List FlightCore))
    (h : (∃ l, a = .ok l ∧ l ≠ []) ∨ (∃ l, g = .ok l ∧ l ≠ [])) :
    (step3 g (step2 s (step1 a))).1 ≠ [] := by
  rcases h with ⟨l, rfl, hlne⟩ | ⟨m, rfl, hmne⟩
  · have h1 : (step1 (.ok l)).1 = l.map (stampSource "amadeus") := rfl
    have h2 : (step2 s (step1 (.ok l))).1 ≠ [] := by
      rw [step2_fst, h1]
      simp [hlne]
    obtain ⟨r, hr⟩ := step3_fst_prefix g (step2 s (step1 (.ok l)))
    rw [hr]
    simp [h2]
  · by_cases hlen : (step2 s (step1 a)).1.length < 3
    · have : (step3 (.ok m) (step2 s (step1 a))).1
          = (step2 s (step1 a)).1 ++ m.map (stampSource "google") := by
        unfold step3
        simp [hlen]
      rw [this]
      simp [hmne]
    · have hq : (step2 s (step1 a)).1 ≠ [] := by
        intro hcon
        rw [hcon] at hlen
        simp at hlen
      have : step3 (.ok m) (step2 s (step1 a)) = step2 s (step1 a) := by
        unfold step3
        simp [hlen]
      rw [this]
      exact hq

end FlightsService

namespace HotelsService

/-- The tail of `fetchHotelsFromAPIs` after the cascade collected `p`. -/
def aggregateFrom (env : Env) (destination : String)
    (p : List Hotel × List ProviderError) : HotelsResult :=
  let results :=
    if p.1.length = 0 then p.1 ++ generateFallbackHotels env destination
    else p.1
  let uniqueResults := removeDuplicateHotels results
  let sortedResults := sortWith (fun a b => decide (a.pricePerNight ≤ b.pricePerNight)) uniqueResults
  { hotels := sortedResults.take 25,
    totalFound := sortedResults.length,
    sources := getSourcesUsed results,
    errors := if p.2.length > 0 then some p.2 else none,
    fallbackUsed := results.isEmpty || results.any (fun h => h.source == "fallback") }

theorem hotels_fetch_eq_aggregate (env : Env) (b e x : Except String (List HotelCore)) (d : String) :
    fetchHotelsFromAPIs env b e x d = aggregateFrom env d (step3 x (step2 e (step1 b))) := rfl

theorem step2_fst_nil (e : Except String (List HotelCore))
    (q : List Hotel × List ProviderError) (hq : q.1 = []) (he : yieldsNone e) :
    (step2 e q).1 = [] := by
  unfold step2
  rw [hq]
  simp only [List.length_nil]
  split
  · cases e with
    | ok l => simp [he l rfl, hq]
    | error err => simp [hq]
  · exact hq

theorem hotels_step3_fst_nil (x : Except String (List HotelCore))
    (q : List Hotel × List ProviderError) (hq : q.1 = []) (hx : yieldsNone x) :
    (step3 x q).1 = [] := by
  unfold step3
  rw [hq]
  simp only [List.length_nil]
  split
  · cases x with
    | ok l => simp [hx l rfl, hq]
    | error err => simp [hq]
  · exact hq

theorem step2_fst_prefix (e : Except String (List HotelCore))
    (q : List Hotel × List ProviderError) : ∃ r, (step2 e q).1 = q.1 ++ r := by
  unfold step2
  split
  · cases e with
    | ok l => exact ⟨l.map (stampSource "expedia"), rfl⟩
    | error err => exact ⟨[], by simp⟩
  · exact ⟨[], by simp⟩

theorem hotels_step3_fst_prefix (x : Except String (List HotelCore))
    (q : List Hotel × List ProviderError) : ∃ r, (step3 x q).1 = q.1 ++ r := by
  unfold step3
  split
  · cases x with
    | ok l => exact ⟨l.map (stampSource "airbnb"), rfl⟩
    | error err => exact ⟨[], by simp⟩
  · exact ⟨[], by simp⟩

theorem hotels_live_source (b e x : Except String (List HotelCore)) (h : Hotel)
    (hm : h ∈ (step3 x (step2 e (step1 b))).1) :
    h.source = "booking" ∨ h.source = "expedia" ∨ h.source = "airbnb" := by
  rcases hotels_mem_step3_fst x _ h hm with h1 | h1
  · rcases mem_step2_fst e _ h h1 with h2 | h2
    · cases b with
      | ok l =>
          simp only [step1] at h2
          rcases List.mem_map.1 h2 with ⟨c, _, rfl⟩
          exact Or.inl rfl
      | error err => simp [step1] at h2
    · exact Or.inr (Or.inl h2)
  · exact Or.inr (Or.inr h1)

theorem hotels_live_nonempty (b e x : Except String (List HotelCore))
    (h : (∃ l, b = .ok l ∧ l ≠ []) ∨ (∃ l, e = .ok l ∧ l ≠ []) ∨ (∃ l, x = .ok l ∧ l ≠ [])) :
    (step3 x (step2 e (step1 b))).1 ≠ [] := by
  rcases h with ⟨l, rfl, hlne⟩ | ⟨m, rfl, hmne⟩ | ⟨n, rfl, hnne⟩
  · have h1 : (step1 (.ok l)).1 ≠ [] := by
      simp [step1, hlne]
    obtain ⟨r2, hr2⟩ := step2_fst_prefix e (step1 (.ok l))
    obtain ⟨r3, hr3⟩ := hotels_step3_fst_prefix x (step2 e (step1 (.ok l)))
    rw [hr3, hr2]
    simp [h1]
  · have h2 : (step2 (.ok m) (step1 b)).1 ≠ [] := by
      by_cases hlen : (step1 b).1.length < 8
      · have : (step2 (.ok m) (step1 b)).1
            = (step1 b).1 ++ m.map (stampSource "expedia") := by
          unfold step2
          simp [hlen]
        rw [this]
        simp [hmne]
      · have hq : (step1 b).1 ≠ [] := by
          intro hcon
          rw [hcon] at hlen
          simp at hlen
        have : step2 (.ok m) (step1 b) = step1 b := by
          unfold step2
          simp [hlen]
        rw [this]
        exact hq
    obtain ⟨r3, hr3⟩ := hotels_step3_fst_prefix x (step2 (.ok m) (step1 b))
    rw [hr3]
    simp [h2]
  · by_cases hlen : (step2 e (step1 b)).1.length < 5
    · have : (step3 (.ok n) (step2 e (step1 b))).1
          = (step2 e (step1 b)).1 ++ n.map (stampSource "airbnb") := by
        unfold step3
        simp [hlen]
      rw [this]
      simp [hnne]
    · have hq : (step2 e (step1 b)).1 ≠ [] := by
        intro hcon
        rw [hcon] at hlen
        simp at hlen
      have : step3 (.ok n) (step2 e (step1 b)) = step2 e (step1 b) := by
        unfold step3
        simp [hlen]
      rw [this]
      exact hq

theorem hotels_aggregate_fallback (env : Env) (d : String)
    (p : List Hotel × List ProviderError) (hp : p.1 = []) :
    (aggregateFrom env d p).fallbackUsed = true ∧
    (aggregateFrom env d p).hotels ≠ [] ∧
    (∀ h ∈ (aggregateFrom env d p).hotels, h.source = "fallback") ∧
    (aggregateFrom env d p).sources = ["fallback"] := by
  have hsrcF : ∀ h ∈ generateFallbackHotels env d, h.source = "fallback" := by
    intro h hf
    rcases List.mem_map.1 hf with ⟨i, _, rfl⟩
    rfl
  have hFne : generateFallbackHotels env d ≠ [] := by
    intro hcon
    have : (generateFallbackHotels env d).length = 8 := by
      simp [generateFallbackHotels]
    rw [hcon] at this
    simp at this
  have hresults :
      (if p.1.length = 0 then p.1 ++ generateFallbackHotels env d else p.1)
        = generateFallbackHotels env d := by
    simp [hp]
  refine ⟨?_, ?_, ?_, ?_⟩
  · show (_ || _) = true
    rw [hresults]
    obtain ⟨h0, t, hF⟩ := List.exists_cons_of_ne_nil hFne
    have : (generateFallbackHotels env d).any (fun h => h.source == "fallback") = true := by
      rw [List.any_eq_true]
      exact ⟨h0, by rw [hF]; simp, by simp [hsrcF h0 (by rw [hF]; simp)]⟩
    simp [this]
  · show List.take 25 _ ≠ []
    rw [hresults]
    obtain ⟨h0, t, hF⟩ := List.exists_cons_of_ne_nil hFne
    have hdne : removeDuplicateHotels (generateFallbackHotels env d) ≠ [] := by
      rw [hF, removeDuplicateHotels, dedupBy_cons]
      simp
    have hlen : 0 < (sortWith (fun a b => decide (a.pricePerNight ≤ b.pricePerNight))
        (removeDuplicateHotels (generateFallbackHotels env d))).length := by
      rw [length_sortWith]
      exact List.length_pos.2 hdne
    intro hcon
    have := congrArg List.length hcon
    rw [List.length_take] at this
    simp only [List.length_nil] at this
    omega
  · intro h hf
    replace hf : h ∈ List.take 25 (sortWith (fun a b => decide (a.pricePerNight ≤ b.pricePerNight))
        (removeDuplicateHotels
          (if p.1.length = 0 then p.1 ++ generateFallbackHotels env d else p.1))) := hf
    rw [hresults] at hf
    have hf1 := List.mem_of_mem_take hf
    have hf2 := (mem_sortWith _ _ _).1 hf1
    have hf3 := mem_of_mem_dedupByAux hotelKey [] _ _ hf2
    exact hsrcF h hf3
  · show getSourcesUsed _ = _
    rw [hresults]
    apply dedupFirst_all_eq
    · intro s hs
      rcases List.mem_map.1 hs with ⟨h, hh, rfl⟩
      exact hsrcF h hh
    · simp [hFne]

theorem hotels_aggregate_live (env : Env) (d : String)
    (p : List Hotel × List ProviderError) (hp : p.1 ≠ [])
    (hsrc : ∀ h ∈ p.1, h.source = "booking" ∨ h.source = "expedia" ∨ h.source = "airbnb") :
    (aggregateFrom env d p).fallbackUsed = false := by
  have hresults :
      (if p.1.length = 0 then p.1 ++ generateFallbackHotels env d else p.1) = p.1 := by
    have : p.1.length ≠ 0 := by
      intro hcon
      exact hp (List.length_eq_zero.1 hcon)
    simp [this]
  show (_ || _) = false
  rw [hresults]
  have h1 : p.1.isEmpty = false := by
    obtain ⟨h0, t, hF⟩ := List.exists_cons_of_ne_nil hp
    rw [hF]; rfl
  have h2 : p.1.any (fun h => h.source == "fallback") = false := by
    rw [List.any_eq_false]
    intro h hf
    rcases hsrc h hf with h3 | h3 | h3 <;> simp [h3]
  rw [h1, h2]
  rfl

end HotelsService

/-- Claim C5: for every aggregation request (flights or hotels) in which
every provider call raises or yields zero items, the aggregate result has
`fallbackUsed = true`, a non-empty item list in which every item carries
`source = "fallback"`, and `sources` equal to exactly `["fallback"]`;
conversely `fallbackUsed` is `false` whenever any live provider contributed
at least one item.  (Skyscanner's transform always yields zero items, so no
hypothesis about it is needed on the all-fail side, and it can never be the
contributing provider on the converse side.) -/
theorem C5_fallback_aggregation :
    (∀ (env : FlightsService.Env) (a : Except String (List FlightsService.FlightCore))
        (s : Except String Unit) (g : Except String (List FlightsService.FlightCore))
        (o d : String), yieldsNone a → yieldsNone g →
      (FlightsService.fetchFlightsFromAPIs env a s g o d).fallbackUsed = true ∧
      (FlightsService.fetchFlightsFromAPIs env a s g o d).flights ≠ [] ∧
      (∀ f ∈ (FlightsService.fetchFlightsFromAPIs env a s g o d).flights,
        f.source = "fallback") ∧
      (FlightsService.fetchFlightsFromAPIs env a s g o d).sources = ["fallback"])
    ∧
    (∀ (env : FlightsService.Env) (a : Except String (List FlightsService.FlightCore))
        (s : Except String Unit) (g : Except String (List FlightsService.FlightCore))
        (o d : String),
      ((∃ l, a = .ok l ∧ l ≠ []) ∨ (∃ l, g = .ok l ∧ l ≠ [])) →
      (FlightsService.fetchFlightsFromAPIs env a s g o d).fallbackUsed = false)
    ∧
    (∀ (env : HotelsService.Env) (b e x : Except String (List HotelsService.HotelCore))
        (d : String), yieldsNone b → yieldsNone e → yieldsNone x →
      (HotelsService.fetchHotelsFromAPIs env b e x d).fallbackUsed = true ∧
      (HotelsService.fetchHotelsFromAPIs env b e x d).hotels ≠ [] ∧
      (∀ h ∈ (HotelsService.fetchHotelsFromAPIs env b e x d).hotels,
        h.source = "fallback") ∧
      (HotelsService.fetchHotelsFromAPIs env b e x d).sources = ["fallback"])
    ∧
    (∀ (env : HotelsService.Env) (b e x : Except String (List HotelsService.HotelCore))
        (d : String),
      ((∃ l, b = .ok l ∧ l ≠ []) ∨ (∃ l, e = .ok l ∧ l ≠ []) ∨ (∃ l, x = .ok l ∧ l ≠ [])) →
      (HotelsService.fetchHotelsFromAPIs env b e x d).fallbackUsed = false) := by
  refine ⟨?_, ?_, ?_, ?_⟩
  · intro env a s g o d ha hg
    have h1 : (FlightsService.step1 a).1 = [] := by
      cases a with
      | ok l => simp [FlightsService.step1, ha l rfl]
      | error err => rfl
    have h2 : (FlightsService.step2 s (FlightsService.step1 a)).1 = [] := by
      rw [FlightsService.step2_fst]; exact h1
    have h3 := FlightsService.step3_fst_nil g _ h2 hg
    simp only [FlightsService.fetch_eq_aggregate]
    exact FlightsService.aggregate_fallback env o d _ h3
  · intro env a s g o d hcontrib
    have hne := FlightsService.live_nonempty a s g hcontrib
    have hsrc := fun f hf => FlightsService.live_source a s g f hf
    simp only [FlightsService.fetch_eq_aggregate]
    exact FlightsService.aggregate_live env o d _ hne hsrc
  · intro env b e x d hb he hx
    have h1 : (HotelsService.step1 b).1 = [] := by
      cases b with
      | ok l => simp [HotelsService.step1, hb l rfl]
      | error err => rfl
    have h2 := HotelsService.step2_fst_nil e _ h1 he
    have h3 := HotelsService.hotels_step3_fst_nil x _ h2 hx
    simp only [HotelsService.hotels_fetch_eq_aggregate]
    exact HotelsService.hotels_aggregate_fallback env d _ h3
  · intro env b e x d hcontrib
    have hne := HotelsService.hotels_live_nonempty b e x hcontrib
    have hsrc := fun h hf => HotelsService.hotels_live_source b e x h hf
    simp only [HotelsService.hotels_fetch_eq_aggregate]
    exact HotelsService.hotels_aggregate_live env d _ hne hsrc

/-- Claim C5 witness: with all providers throwing, the flights and hotels
aggregates are fully synthetic (`fallbackUsed`, non-empty, sources exactly
`["fallback"]`); with one live provider contributing one item,
`fallbackUsed` is `false`. -/
theorem C5_witness :
    (FlightsService.fetchFlightsFromAPIs ⟨fun _ => 0, fun _ => 0⟩ (.error "timeout")
        (.error "auth") (.error "timeout") "JFK" "LAX").fallbackUsed = true ∧
    (FlightsService.fetchFlightsFromAPIs ⟨fun _ => 0, fun _ => 0⟩ (.error "timeout")
        (.error "auth") (.error "timeout") "JFK" "LAX").flights ≠ [] ∧
    (FlightsService.fetchFlightsFromAPIs ⟨fun _ => 0, fun _ => 0⟩ (.error "timeout")
        (.error "auth") (.error "timeout") "JFK" "LAX").sources = ["fallback"] ∧
    (FlightsService.fetchFlightsFromAPIs ⟨fun _ => 0, fun _ => 0⟩
        (.ok [⟨"a1", "AA", "AA100", "08:00", 200⟩]) (.error "auth") (.error "timeout")
        "JFK" "LAX").fallbackUsed = false ∧
    (HotelsService.fetchHotelsFromAPIs ⟨fun _ => 0⟩ (.error "timeout") (.error "timeout")
        (.error "timeout") "Paris").fallbackUsed = true ∧
    (HotelsService.fetchHotelsFromAPIs ⟨fun _ => 0⟩ (.error "timeout") (.error "timeout")
        (.error "timeout") "Paris").sources = ["fallback"] ∧
    (HotelsService.fetchHotelsFromAPIs ⟨fun _ => 0⟩
        (.ok [⟨"b1", "Grand Hotel", "Rue 1", 90⟩]) (.error "timeout") (.error "timeout")
        "Paris").fallbackUsed = false := by
  have hfail : ∀ {α : Type} (msg : String), yieldsNone (α := α) (.error msg) := by
    intro α msg l h
    cases h
  have F1 := C5_fallback_aggregation.1 ⟨fun _ => 0, fun _ => 0⟩ (.error "timeout")
    (.error "auth") (.error "timeout") "JFK" "LAX" (hfail "timeout") (hfail "timeout")
  have F2 := C5_fallback_aggregation.2.1 ⟨fun _ => 0, fun _ => 0⟩
    (.ok [⟨"a1", "AA", "AA100", "08:00", 200⟩]) (.error "auth") (.error "timeout")
    "JFK" "LAX" (Or.inl ⟨[⟨"a1", "AA", "AA100", "08:00", 200⟩], rfl, by simp⟩)
  have H1 := C5_fallback_aggregation.2.2.1 ⟨fun _ => 0⟩ (.error "timeout") (.error "timeout")
    (.error "timeout") "Paris" (hfail "timeout") (hfail "timeout") (hfail "timeout")
  have H2 := C5_fallback_aggregation.2.2.2 ⟨fun _ => 0⟩
    (.ok [⟨"b1", "Grand Hotel", "Rue 1", 90⟩]) (.error "timeout") (.error "timeout")
    "Paris" (Or.inl ⟨[⟨"b1", "Grand Hotel", "Rue 1", 90⟩], rfl, by simp⟩)
  exact ⟨F1.1, F1.2.1, F1.2.2.2, F2, H1.1, H1.2.2.2, H2⟩

/-- Does `l` start with `n`? (character-wise). -/
def listStartsWith : List Char → List Char → Bool
  | _, [] => true
  | [], _ :: _ => false
  | c :: cs, d :: ds => c = d && listStartsWith cs ds

/-- Does `l` contain `n` as a contiguous run? -/
def listHasInfix (n : List Char) : List Char → Bool
  | [] => listStartsWith [] n
  | c :: cs => listStartsWith (c :: cs) n || listHasInfix n cs

/-- JavaScript `hay.includes(needle)` (case-sensitive substring test). -/
def strIncludes (hay needle : String) : Bool :=
  listHasInfix needle.toList hay.toList

namespace AIPlannerService

/-- The resolved destination carried by a travel request; `coordinates` is
`(lat, lng)`. -/
structure Destination where
  name : String
  country : String
  description : String
  climate : String
  imageUrl : String
  bestMonths : List ℕ
  coordinates : ℚ × ℚ
  deriving DecidableEq

/-- The normalized travel request the planner receives. -/
structure TravelRequest where
  budget : ℚ
  duration : ℕ
  travelers : ℕ
  interests : List String
  travelStyle : String
  groupType : String
  pace : String
  accessibility : List String
  dietaryRestrictions : List String
  climate : String
  departureDate : String
  destination : Destination
  deriving DecidableEq

structure BudgetConflict where
  detected : Bool
  suggestions : List String
  alternatives : List String
  deriving DecidableEq

structure DurationConflict where
  detected : Bool
  reasoning : String
  adaptedItinerary : List String
  deriving DecidableEq

structure ClimateConflict where
  detected : Bool
  explanation : String
  alternatives : List String
  deriving DecidableEq

structure NoDataAvailable where
  detected : Bool
  reason : String
  aiSuggestions : List String
  deriving DecidableEq

/-- The report `analyzeEdgeCases` produces. -/
structure EdgeCases where
  budgetConflict : BudgetConflict
  durationConflict : DurationConflict
  climateConflict : ClimateConflict
  noDataAvailable : NoDataAvailable
  deriving DecidableEq

/-- `estimateTripCost(request)`: `(baseCost * 0.8) + (duration * 50) +
(travelers * 100)` where `baseCost = request.budget`. -/
def estimateTripCost (r : TravelRequest) : ℚ :=
  (r.budget * (8/10)) + ((r.duration : ℚ) * 50) + ((r.travelers : ℚ) * 100)

/-- `suggestClimateAlternatives(preferredClimate)`. -/
def suggestClimateAlternatives (preferredClimate : String) : List String :=
  if preferredClimate = "tropical" then ["Bali, Indonesia", "Costa Rica", "Thailand"]
  else if preferredClimate = "temperate" then ["Japan", "France", "Italy"]
  else if preferredClimate = "cold" then ["Switzerland", "Norway", "Canada"]
  else ["Consider destinations with your preferred climate"]

def shortTripReasoning : String :=
  "Very short trips require focused, highlights-only itineraries"

def longTripReasoning : String :=
  "Long trips benefit from slower pace and deeper cultural immersion"

def budgetSuggestions : List String :=
  ["Consider traveling during off-peak season",
   "Look for budget accommodation options",
   "Reduce number of activities",
   "Choose a different destination with lower costs"]

/-- `analyzeEdgeCases(request)`: pure, synchronous flag computation. -/
def analyzeEdgeCases (r : TravelRequest) : EdgeCases :=
  let budgetConflict : BudgetConflict :=
    if estimateTripCost r > r.budget * (12/10) then
      { detected := true, suggestions := budgetSuggestions, alternatives := [] }
    else
      { detected := false, suggestions := [], alternatives := [] }
  let durationConflict : DurationConflict :=
    if r.duration < 3 then
      { detected := true, reasoning := shortTripReasoning, adaptedItinerary := [] }
    else if r.duration > 21 then
      { detected := true, reasoning := longTripReasoning, adaptedItinerary := [] }
    else
      { detected := false, reasoning := "", adaptedItinerary := [] }
  let climateConflict : ClimateConflict :=
    if r.climate ≠ "any" ∧ r.destination.climate ≠ r.climate then
      { detected := true,
        explanation := "Your preferred climate (" ++ r.climate ++
          ") doesn\x27t match the destination\x27s climate (" ++
          r.destination.climate ++ ")",
        alternatives := suggestClimateAlternatives r.climate }
    else
      { detected := false, explanation := "", alternatives := [] }
  { budgetConflict := budgetConflict,
    durationConflict := durationConflict,
    climateConflict := climateConflict,
    noDataAvailable := { detected := false, reason := "", aiSuggestions := [] } }

end AIPlannerService

namespace AIPlannerService

structure Temperature where
  min : ℚ
  max : ℚ
  current : ℚ
  deriving DecidableEq

/-- The synthesized weather stub a day is enhanced with. -/
structure Weather where
  date : String
  temperature : Temperature
  condition : String
  icon : String
  humidity : ℚ
  windSpeed : ℚ
  precipitation : ℚ
  uvIndex : ℚ
  sunrise : String
  sunset : String
  source : String
  deriving DecidableEq

structure Activity where
  id : String
  name : String
  description : String
  duration : ℚ
  price : ℚ
  category : String
  rating : ℚ
  imageUrl : String
  deriving DecidableEq

/-- A time-slotted activity entry of a day. -/
structure ActivitySlot where
  activity : Activity
  startTime : String
  endTime : String
  travelTime : ℚ
  travelMethod : String
  notes : String
  deriving DecidableEq

structure Meal where
  type : String
  time : String
  location : String
  cuisine : String
  estimatedCost : ℚ
  dietaryOptions : List String
  reservationRequired : Bool
  deriving DecidableEq

/-- A local transportation record (`from`/`to` are Lean keywords, hence
`fromLoc`/`toLoc`). -/
structure Transportation where
  type : String
  fromLoc : String
  toLoc : String
  departureTime : String
  arrivalTime : String
  duration : ℚ
  cost : ℚ
  notes : String
  deriving DecidableEq

structure Accommodation where
  id : String
  name : String
  rating : ℚ
  pricePerNight : ℚ
  imageUrl : String
  amenities : List String
  location : String
  description : String
  availability : Bool
  checkIn : String
  checkOut : String
  roomType : String
  cancellationPolicy : String
  breakfast : Bool
  wifi : Bool
  parking : Bool
  petFriendly : Bool
  coordinates : ℚ × ℚ
  distanceFromAirport : ℚ
  distanceFromCityCenter : ℚ
  source : String
  lastUpdated : String
  deriving DecidableEq

structure ItineraryDay where
  day : ℕ
  date : String
  weather : Weather
  activities : List ActivitySlot
  meals : List Meal
  transportation : List Transportation
  accommodation : Accommodation
  notes : String
  estimatedCost : ℚ
  estimatedDuration : ℚ
  deriving DecidableEq

structure BudgetBreakdown where
  accommodation : ℚ
  activities : ℚ
  meals : ℚ
  transportation : ℚ
  miscellaneous : ℚ
  deriving DecidableEq

/-- The parsed-itinerary result every parsing tier produces. -/
structure Plan where
  itinerary : List ItineraryDay
  totalCost : ℚ
  budgetBreakdown : BudgetBreakdown
  recommendations : List String
  warnings : List String
  alternatives : List String
  confidence : ℚ
  reasoning : String
  deriving DecidableEq

/-- JavaScript `x || default` for an optional number (`0` and `NaN` are
falsy; an absent/unparseable field is `none`). -/
def jsOrQ (v : Option ℚ) (d : ℚ) : ℚ :=
  match v with
  | some q => if q = 0 then d else q
  | none => d

/-- JavaScript `x || default` for an optional string (`""` is falsy). -/
def jsOrStr (v : Option String) (d : String) : String :=
  match v with
  | some s => if s = "" then d else s
  | none => d

/-- A morning/afternoon/evening slot object of the generated JSON, observed
through the fields `createItineraryActivity` reads; `duration` and `cost`
carry the `parseInt`/`parseFloat` result (`none` for absent or `NaN`). -/
structure SlotJson where
  activity : Option String
  location : Option String
  duration : Option ℚ
  cost : Option ℚ
  notes : Option String
  deriving DecidableEq

/-- A meal object of the generated JSON, observed through the fields
`formatMeals` reads. -/
structure MealJson where
  type : Option String
  time : Option String
  location : Option String
  cuisine : Option String
  cost : Option ℚ
  deriving DecidableEq

/-- The `meals` field of a generated JSON day: absent, a truthy non-array
value, or an array of meal objects. -/
inductive MealsField where
  | missing
  | notArray
  | arr (meals : List MealJson)
  deriving DecidableEq

/-- A non-empty-keyed `transportation` object (`none` at the use site stands
for an absent or empty object, which `formatTransportation` replaces with
the default). -/
structure TransJson where
  cost : Option ℚ
  notes : Option String
  deriving DecidableEq

/-- The `activities` field of a *raw* generated JSON day, which
`calculateDayDuration` reads (note: the requested schema has no such field).
`missing` makes `day.activities.reduce` throw; an array element whose
`activity.duration` access would throw is `none`. -/
inductive RawActivities where
  | missing
  | arr (durations : List (Option ℚ))
  deriving DecidableEq

/-- One day object of the generated JSON, observed through the fields
`validateAndEnhanceItinerary` reads. -/
structure DayJson where
  date : Option String
  morning : Option SlotJson
  afternoon : Option SlotJson
  evening : Option SlotJson
  meals : MealsField
  transportation : Option TransJson
  notes : Option String
  totalDayCost : Option ℚ
  activities : RawActivities
  deriving DecidableEq

/-- The `itinerary` field of the decoded JSON: absent/falsy, present but
not an array, or an array of days. -/
inductive ItineraryField where
  | missing
  | notArray
  | arr (days : List DayJson)
  deriving DecidableEq

/-- The decoded top-level JSON, observed through the fields the validator
reads. -/
structure ParsedJson where
  itinerary : ItineraryField
  totalCost : Option ℚ
  budgetBreakdown : Option BudgetBreakdown
  recommendations : Option (List String)
  warnings : Option (List String)
  alternatives : Option (List String)
  deriving DecidableEq

/-- Environment of one planner call: the clock and the host library
behaviour.  `dateAdd` models the `Date` arithmetic of `calculateDate`,
`randWeather`/`randPrice`/`randCost` the `Math.floor(Math.random() * _)`
draws (indexed by use site), and `jsonParse` models `JSON.parse` viewed
through the fields the code reads (`none` = the parse threw). -/
structure Env where
  nowMs : ℕ
  todayStr : String
  nowIso : String
  dateAdd : ℕ → String → String
  randWeather : ℕ → ℕ
  randPrice : ℕ → ℕ → ℕ
  randCost : ℕ → ℕ
  jsonParse : String → Option ParsedJson

/-- `calculateDate(dayOffset, startDate)` (host `Date` arithmetic). -/
def calculateDate (env : Env) (dayOffset : ℕ) (startDate : String) : String :=
  env.dateAdd dayOffset startDate

/-- `generateMockWeather(climate)`; `draw` indexes the `Math.random()` call. -/
def generateMockWeather (env : Env) (climate : String) (draw : ℕ) : Weather :=
  let conditions : List String :=
    if climate = "tropical" then ["Sunny", "Partly Cloudy", "Light Rain"]
    else if climate = "temperate" then ["Clear", "Cloudy", "Light Rain"]
    else if climate = "cold" then ["Clear", "Cloudy", "Snow"]
    else []
  let condition := (conditions.get? (env.randWeather draw)).getD "Clear"
  { date := env.todayStr,
    temperature := { min := 15, max := 25, current := 20 },
    condition := condition,
    icon := "01d", humidity := 60, windSpeed := 5, precipitation := 0,
    uvIndex := 3, sunrise := "06:00", sunset := "18:00", source := "mock" }

/-- `createItineraryActivity(activityData, timeSlot)`. -/
def createItineraryActivity (env : Env) (activityData : SlotJson) (timeSlot : String) :
    ActivitySlot :=
  { activity :=
      { id := "ai-" ++ timeSlot ++ "-" ++ toString env.nowMs,
        name := jsOrStr activityData.activity "Activity",
        description := jsOrStr activityData.notes "Planned activity",
        duration := jsOrQ activityData.duration 2,
        price := jsOrQ activityData.cost 0,
        category := "cultural",
        rating := 9/2,
        imageUrl := "https://via.placeholder.com/300x200?text=Activity" },
    startTime := if timeSlot = "morning" then "09:00"
                 else if timeSlot = "afternoon" then "14:00" else "19:00",
    endTime := if timeSlot = "morning" then "12:00"
               else if timeSlot = "afternoon" then "17:00" else "22:00",
    travelTime := 0,
    travelMethod := "Walking",
    notes := jsOrStr activityData.notes "" }

/-- `formatActivities(day)`: morning/afternoon/evening slots, in order,
kept only when truthy. -/
def formatActivities (env : Env) (day : DayJson) : List ActivitySlot :=
  (match day.morning with
   | some s => [createItineraryActivity env s "morning"]
   | none => []) ++
  (match day.afternoon with
   | some s => [createItineraryActivity env s "afternoon"]
   | none => []) ++
  (match day.evening with
   | some s => [createItineraryActivity env s "evening"]
   | none => [])

/-- `generateDefaultMeals()`. -/
def generateDefaultMeals : List Meal :=
  [{ type := "breakfast", time := "08:00", location := "Hotel",
     cuisine := "International", estimatedCost := 0,
     dietaryOptions := ["Standard"], reservationRequired := false },
   { type := "lunch", time := "13:00", location := "Local restaurant",
     cuisine := "Local", estimatedCost := 20,
     dietaryOptions := ["Standard"], reservationRequired := false },
   { type := "dinner", time := "19:00", location := "Local restaurant",
     cuisine := "Local", estimatedCost := 30,
     dietaryOptions := ["Standard"], reservationRequired := false }]

/-- `formatMeals(meals)`: a non-array argument yields the default meals,
an array is mapped field-by-field with JS `||` defaults. -/
def formatMeals : MealsField → List Meal
  | .notArray => generateDefaultMeals
  | .missing => generateDefaultMeals
  | .arr meals =>
      meals.map (fun m =>
        { type := jsOrStr m.type "meal",
          time := jsOrStr m.time "12:00",
          location := jsOrStr m.location "Local restaurant",
          cuisine := jsOrStr m.cuisine "Local",
          estimatedCost := jsOrQ m.cost 15,
          dietaryOptions := ["Standard"],
          reservationRequired := false })

/-- `day.meals || []` at the call site of `formatMeals` in the validator:
an absent field becomes the (truthy) empty array. -/
def jsOrMeals : MealsField → MealsField
  | .missing => .arr []
  | m => m

/-- `generateDefaultTransportation()`. -/
def generateDefaultTransportation : List Transportation :=
  [{ type := "walking", fromLoc := "Hotel", toLoc := "City center",
     departureTime := "09:00", arrivalTime := "09:15", duration := 15,
     cost := 0, notes := "Walking distance" }]

/-- `formatTransportation(transportation)`: an absent or empty-keyed object
yields the default; otherwise a single walking record built with JS `||`
defaults. -/
def formatTransportation : Option TransJson → List Transportation
  | none => generateDefaultTransportation
  | some t =>
      [{ type := "walking", fromLoc := "Previous location", toLoc := "Next location",
         departureTime := "After activity", arrivalTime := "Before next activity",
         duration := 15, cost := jsOrQ t.cost 0,
         notes := jsOrStr t.notes "Local transportation" }]

/-- `generateMockAccommodation(request)`. -/
def generateMockAccommodation (env : Env) (r : TravelRequest) : Accommodation :=
  { id := "mock-hotel",
    name := r.destination.name ++ " Hotel",
    rating := 4,
    pricePerNight := ((⌊r.budget / (r.duration : ℚ) / 3⌋ : ℤ) : ℚ),
    imageUrl := r.destination.imageUrl,
    amenities := ["WiFi", "Breakfast"],
    location := "City center",
    description := "Comfortable accommodation",
    availability := true,
    checkIn := "15:00", checkOut := "11:00",
    roomType := "Standard", cancellationPolicy := "Flexible",
    breakfast := true, wifi := true, parking := false, petFriendly := false,
    coordinates := r.destination.coordinates,
    distanceFromAirport := 20, distanceFromCityCenter := 1,
    source := "mock",
    lastUpdated := env.nowIso }

/-- `calculateTotalCost(itinerary)`: `reduce((total, day) => total +
day.estimatedCost, 0)`. -/
def calculateTotalCost (itinerary : List ItineraryDay) : ℚ :=
  itinerary.foldl (fun total day => total + day.estimatedCost) 0

/-- `calculateBudgetBreakdown(itinerary)`: sums activity prices, meal costs
and transportation costs over the days, then estimates accommodation and
miscellaneous as floored fractions of the activity component. -/
def calculateBudgetBreakdown (itinerary : List ItineraryDay) : BudgetBreakdown :=
  let acts := itinerary.foldl
    (fun s day => s + day.activities.foldl (fun t a => t + a.activity.price) 0) 0
  let ms := itinerary.foldl
    (fun s day => s + day.meals.foldl (fun t m => t + m.estimatedCost) 0) 0
  let tr := itinerary.foldl
    (fun s day => s + day.transportation.foldl (fun t x => t + x.cost) 0) 0
  { accommodation := ((⌊acts * (3/10)⌋ : ℤ) : ℚ),
    activities := acts,
    meals := ms,
    transportation := tr,
    miscellaneous := ((⌊acts * (1/10)⌋ : ℤ) : ℚ) }

end AIPlannerService

namespace AIPlannerService

def lbrace : Char := Char.ofNat 123

def rbrace : Char := Char.ofNat 125

/-- Drop characters up to (and keeping) the first opening brace. -/
def dropToBrace : List Char → Option (List Char)
  | [] => none
  | c :: cs => if c = lbrace then some (c :: cs) else dropToBrace cs

/-- Drop characters of a reversed list up to (and keeping) the first
closing brace, i.e. the last closing brace of the original list. -/
def dropToCloseRev : List Char → Option (List Char)
  | [] => none
  | c :: cs => if c = rbrace then some (c :: cs) else dropToCloseRev cs

/-- `responseText.match(/\x7b[\s\S]*\x7d/)`: the substring from the first
opening brace through the last closing brace after it, if any. -/
def jsonMatch (s : String) : Option String :=
  match dropToBrace s.toList with
  | none => none
  | some t =>
      match dropToCloseRev t.reverse with
      | none => none
      | some r => some (String.mk r.reverse)

/-- `calculateDayDuration(day)` applied to a *raw* JSON day, as the
validator does: `day.activities.reduce((total, a) => total +
a.activity.duration, 0)`; `none` models the `TypeError` thrown when
`day.activities` is absent or an element has no `activity` object. -/
def calculateDayDurationJson (day : DayJson) : Option ℚ :=
  match day.activities with
  | .missing => none
  | .arr ds =>
      ds.foldl
        (fun acc d =>
          match acc, d with
          | some t, some x => some (t + x)
          | _, _ => none)
        (some 0)

/-- The enhanced record the validator builds for the day at index `i`;
`none` when computing `estimatedDuration` throws. -/
def enhanceDay (env : Env) (r : TravelRequest) (i : ℕ) (day : DayJson) :
    Option ItineraryDay :=
  match calculateDayDurationJson day with
  | none => none
  | some dur =>
      some { day := i + 1,
             date := jsOrStr day.date (calculateDate env i r.departureDate),
             weather := generateMockWeather env r.destination.climate i,
             activities := formatActivities env day,
             meals := formatMeals (jsOrMeals day.meals),
             transportation := formatTransportation day.transportation,
             accommodation := generateMockAccommodation env r,
             notes := jsOrStr day.notes "",
             estimatedCost := jsOrQ day.totalDayCost 0,
             estimatedDuration := dur }

/-- Sequential enhancement of the day array (the `.map` throws at the first
bad day). -/
def enhanceDaysAux (env : Env) (r : TravelRequest) (i : ℕ) :
    List DayJson → Option (List ItineraryDay)
  | [] => some []
  | d :: ds =>
      match enhanceDay env r i d with
      | none => none
      | some e =>
          match enhanceDaysAux env r (i + 1) ds with
          | none => none
          | some es => some (e :: es)

/-- `validateAndEnhanceItinerary(parsed, request)`: throws (`none`) when
`parsed.itinerary` is falsy or not an array, or when enhancing a day
throws; otherwise builds the confidence-0.9 plan with JS `||` defaults for
the top-level fields. -/
def validateAndEnhanceItinerary (env : Env) (parsed : ParsedJson) (r : TravelRequest) :
    Option Plan :=
  match parsed.itinerary with
  | .arr days =>
      match enhanceDaysAux env r 0 days with
      | none => none
      | some enhanced =>
          some { itinerary := enhanced,
                 totalCost := jsOrQ parsed.totalCost (calculateTotalCost enhanced),
                 budgetBreakdown := parsed.budgetBreakdown.getD (calculateBudgetBreakdown enhanced),
                 recommendations := parsed.recommendations.getD [],
                 warnings := parsed.warnings.getD [],
                 alternatives := parsed.alternatives.getD [],
                 confidence := 9/10,
                 reasoning := "AI-generated itinerary with validation and enhancement" }
  | _ => none

/-- Skip leading whitespace (the `\s*` of the day delimiter). -/
def dropSpacesJs : List Char → List Char
  | [] => []
  | c :: cs => if c.isWhitespace then dropSpacesJs cs else c :: cs

/-- Skip a maximal run of digits (the greedy `\d+` tail). -/
def takeDigitsRest : List Char → List Char
  | [] => []
  | c :: cs => if c.isDigit then takeDigitsRest cs else c :: cs

theorem dropSpacesJs_length_le (l : List Char) : (dropSpacesJs l).length ≤ l.length := by
  induction l with
  | nil => simp [dropSpacesJs]
  | cons c cs ih =>
      simp only [dropSpacesJs]
      split
      · exact Nat.le_succ_of_le ih
      · simp

theorem takeDigitsRest_length_le (l : List Char) : (takeDigitsRest l).length ≤ l.length := by
  induction l with
  | nil => simp [takeDigitsRest]
  | cons c cs ih =>
      simp only [takeDigitsRest]
      split
      · exact Nat.le_succ_of_le ih
      · simp

/-- Match the case-insensitive delimiter `day\s*\d+` at the head of the
list, returning the remainder after the greedy digit run. -/
def matchDayNum : List Char → Option (List Char)
  | c1 :: c2 :: c3 :: rest =>
      if c1.toLower = 'd' ∧ c2.toLower = 'a' ∧ c3.toLower = 'y' then
        match dropSpacesJs rest with
        | [] => none
        | c :: cs => if c.isDigit then some (takeDigitsRest (c :: cs)) else none
      else none
  | _ => none

theorem matchDayNum_length {l r : List Char} (h : matchDayNum l = some r) :
    r.length < l.length := by
  match l with
  | [] => simp [matchDayNum] at h
  | [c1] => simp [matchDayNum] at h
  | [c1, c2] => simp [matchDayNum] at h
  | c1 :: c2 :: c3 :: rest =>
      simp only [matchDayNum] at h
      by_cases hcond : (c1.toLower = 'd' ∧ c2.toLower = 'a' ∧ c3.toLower = 'y')
      · rw [if_pos hcond] at h
        cases hds : dropSpacesJs rest with
        | nil => rw [hds] at h; exact absurd h (by simp)
        | cons c cs =>
            rw [hds] at h
            replace h : (if c.isDigit = true then some (takeDigitsRest (c :: cs))
                else none) = some r := h
            by_cases hdig : c.isDigit = true
            · rw [if_pos hdig] at h
              injection h with hr
              have h1 : (takeDigitsRest (c :: cs)).length ≤ cs.length + 1 := by
                simpa using takeDigitsRest_length_le (c :: cs)
              have h2 : cs.length + 1 = (dropSpacesJs rest).length := by rw [hds]; rfl
              have h3 := dropSpacesJs_length_le rest
              rw [← hr]
              simp only [List.length_cons]
              omega
            · rw [if_neg hdig] at h; exact absurd h (by simp)
      · rw [if_neg hcond] at h; exact absurd h (by simp)

/-- `text.split(/day\s*\d+/i)`: chunks between successive delimiter
matches, leftmost-first. -/
def splitByDayAux : List Char → List Char → List (List Char)
  | [], acc => [acc.reverse]
  | c :: cs, acc =>
      match h : matchDayNum (c :: cs) with
      | some rest => acc.reverse :: splitByDayAux rest []
      | none => splitByDayAux cs (c :: acc)
termination_by l _ => l.length
decreasing_by
  · exact matchDayNum_length h
  · simp

def splitByDayText (s : String) : List String :=
  (splitByDayAux s.toList []).map (fun l => String.mk l)

/-- `text.split(/[.!?]/)`. -/
def splitSentencesAux : List Char → List Char → List (List Char)
  | [], acc => [acc.reverse]
  | c :: cs, acc =>
      if c = '.' ∨ c = '!' ∨ c = '?' then acc.reverse :: splitSentencesAux cs []
      else splitSentencesAux cs (c :: acc)

def splitSentences (s : String) : List String :=
  (splitSentencesAux s.toList []).map (fun l => String.mk l)

/-- `parseActivitiesFromText(text)`: up to two generic activities from the
sentences longer than 10 characters; `dayIdx` indexes the `Math.random()`
price draws. -/
def parseActivitiesFromText (env : Env) (dayIdx : ℕ) (text : String) :
    List ActivitySlot :=
  let activities := (splitSentences text).filter (fun s => s.trim.length > 10)
  ((activities.take 2).enum).map (fun p =>
    { activity :=
        { id := "parsed-" ++ toString (p.1 + 1),
          name := "Activity " ++ toString (p.1 + 1),
          description := p.2.trim,
          duration := 2,
          price := ((env.randPrice dayIdx p.1 + 25 : ℕ) : ℚ),
          category := "exploration",
          rating := 4,
          imageUrl := "https://via.placeholder.com/300x200?text=Activity" },
      startTime := if p.1 = 0 then "09:00" else "14:00",
      endTime := if p.1 = 0 then "11:00" else "16:00",
      travelTime := 0,
      travelMethod := "Walking",
      notes := p.2.trim })

/-- `createStructuredItineraryFromText(text, request)`: the heuristic
plain-text tier, fixed confidence 0.7. -/
def createStructuredItineraryFromText (env : Env) (text : String) (r : TravelRequest) :
    Plan :=
  let days := (splitByDayText text).filter (fun day => day.trim.length > 0)
  let itinerary := ((days.take r.duration).enum).map (fun p =>
    { day := p.1 + 1,
      date := calculateDate env p.1 r.departureDate,
      weather := generateMockWeather env r.destination.climate p.1,
      activities := parseActivitiesFromText env p.1 p.2,
      meals := generateDefaultMeals,
      transportation := generateDefaultTransportation,
      accommodation := generateMockAccommodation env r,
      notes := p.2.trim,
      estimatedCost := ((env.randCost p.1 + 50 : ℕ) : ℚ),
      estimatedDuration := 8 : ItineraryDay })
  { itinerary := itinerary,
    totalCost := calculateTotalCost itinerary,
    budgetBreakdown := calculateBudgetBreakdown itinerary,
    recommendations := ["Generated from AI text response"],
    warnings := ["Itinerary parsed from text - verify details"],
    alternatives := [],
    confidence := 7/10,
    reasoning := "Parsed from AI text response" }

/-- `createFallbackItinerary(request)`: the fully templated tier — one
generic exploration activity per requested day, default meals and
transportation, fixed confidence 0.5. -/
def createFallbackItinerary (env : Env) (r : TravelRequest) : Plan :=
  let itinerary := (List.range r.duration).map (fun index =>
    { day := index + 1,
      date := calculateDate env index r.departureDate,
      weather := generateMockWeather env r.destination.climate index,
      activities :=
        [{ activity :=
             { id := "fallback-" ++ toString (index + 1),
               name := "Day " ++ toString (index + 1) ++ " Exploration",
               description := "Explore " ++ r.destination.name ++
                 " and discover local attractions",
               duration := 4,
               price := ((env.randPrice index 0 + 25 : ℕ) : ℚ),
               category := "exploration",
               rating := 4,
               imageUrl := r.destination.imageUrl },
           startTime := "09:00",
           endTime := "13:00",
           travelTime := 0,
           travelMethod := "Walking",
           notes := "Flexible exploration day" }],
      meals := generateDefaultMeals,
      transportation := generateDefaultTransportation,
      accommodation := generateMockAccommodation env r,
      notes := "Fallback itinerary - customize based on preferences",
      estimatedCost := ((env.randCost index + 50 : ℕ) : ℚ),
      estimatedDuration := 6 : ItineraryDay })
  { itinerary := itinerary,
    totalCost := calculateTotalCost itinerary,
    budgetBreakdown := calculateBudgetBreakdown itinerary,
    recommendations :=
      ["This is a fallback itinerary. Consider customizing based on your interests."],
    warnings := ["AI generation failed - using fallback itinerary"],
    alternatives := [],
    confidence := 1/2,
    reasoning := "Fallback itinerary due to AI generation failure" }

/-- `parseItineraryResponse(responseText, request)`: JSON tier, then — when
no brace-delimited substring exists — the heuristic text tier; any throw of
the JSON tier (decode or validation) is caught and yields the templated
fallback.  Total by construction: it never throws. -/
def parseItineraryResponse (env : Env) (responseText : String) (r : TravelRequest) :
    Plan :=
  match jsonMatch responseText with
  | some jsonStr =>
      match env.jsonParse jsonStr with
      | some parsed =>
          match validateAndEnhanceItinerary env parsed r with
          | some plan => plan
          | none => createFallbackItinerary env r
      | none => createFallbackItinerary env r
  | none => createStructuredItineraryFromText env responseText r

end AIPlannerService

namespace AIPlannerService

/-- The decoded insights JSON of the enhancement pass, observed through the
fields `enhanceWithAIInsights` pushes. -/
structure Insights where
  additionalActivities : List String
  diningSuggestions : List String
  culturalTips : List String
  travelTips : List String
  potentialIssues : List String
  deriving DecidableEq

/-- `enhanceWithAIInsights(itinerary, request)`: merges the optional second
generation pass into the recommendation/warning lists; any failure of the
call or of decoding its output is swallowed and the plan is returned
unchanged.  The outcome of the external call (decoded insights, or the
thrown error) is the `outcome` argument. -/
def enhanceWithAIInsights (itinerary : Plan) (outcome : Except String Insights) : Plan :=
  match outcome with
  | .error _ => itinerary
  | .ok ins =>
      { itinerary with
        recommendations := itinerary.recommendations ++ ins.additionalActivities ++
          ins.diningSuggestions ++ ins.culturalTips ++ ins.travelTips,
        warnings := itinerary.warnings ++ ins.potentialIssues }

/-- `optimizeForBudget(itinerary, budgetConflict)`: appends the fixed
header and the conflict's suggestions to the recommendations, floors every
activity price to 70% (`Math.floor(price * 0.7)`), and recomputes
`totalCost` and `budgetBreakdown` from the adjusted day list. -/
def optimizeForBudget (itinerary : Plan) (budgetConflict : BudgetConflict) : Plan :=
  let newDays := itinerary.itinerary.map (fun day =>
    { day with
      activities := day.activities.map (fun slot =>
        { slot with
          activity :=
            { slot.activity with
              price := ((⌊slot.activity.price * (7/10)⌋ : ℤ) : ℚ) } }) })
  { itinerary with
    recommendations := itinerary.recommendations ++
      ["Budget optimization applied:"] ++ budgetConflict.suggestions,
    itinerary := newDays,
    totalCost := calculateTotalCost newDays,
    budgetBreakdown := calculateBudgetBreakdown newDays }

/-- `adaptForDuration(itinerary, durationConflict)`: branches on a
case-sensitive `reasoning.includes('short')` / `reasoning.includes('long')`
test of the conflict's reasoning text. -/
def adaptForDuration (itinerary : Plan) (durationConflict : DurationConflict) : Plan :=
  if strIncludes durationConflict.reasoning "short" then
    { itinerary with
      itinerary := itinerary.itinerary.map (fun day =>
        { day with
          activities := day.activities.take 1,
          notes := day.notes ++ " - Highlights-focused for short trip" }) }
  else if strIncludes durationConflict.reasoning "long" then
    { itinerary with
      recommendations := itinerary.recommendations ++
        ["Long trip optimization: Added cultural immersion activities",
         "Consider local language classes",
         "Include day trips to nearby destinations"] }
  else itinerary

/-- `adaptForClimate(itinerary, climateConflict)`: advisory only — appends
warnings and indoor-alternative recommendations. -/
def adaptForClimate (itinerary : Plan) (climateConflict : ClimateConflict) : Plan :=
  { itinerary with
    warnings := itinerary.warnings ++
      ["Climate consideration: " ++ climateConflict.explanation,
       "Indoor alternatives suggested for weather-dependent activities"],
    recommendations := itinerary.recommendations ++
      ["Museum visits for rainy days",
       "Indoor cultural experiences",
       "Shopping centers and galleries as weather alternatives"] }

/-- `applyEdgeCaseHandling(itinerary, edgeCases)`: budget, then duration,
then climate, each applied only when its flag is detected. -/
def applyEdgeCaseHandling (itinerary : Plan) (edgeCases : EdgeCases) : Plan :=
  let m1 := if edgeCases.budgetConflict.detected then
      optimizeForBudget itinerary edgeCases.budgetConflict else itinerary
  let m2 := if edgeCases.durationConflict.detected then
      adaptForDuration m1 edgeCases.durationConflict else m1
  if edgeCases.climateConflict.detected then
    adaptForClimate m2 edgeCases.climateConflict else m2

/-- The record `createAIItinerary` resolves with on success. -/
structure AIResult where
  itinerary : List ItineraryDay
  totalCost : ℚ
  budgetBreakdown : BudgetBreakdown
  recommendations : List String
  warnings : List String
  alternatives : List String
  confidence : ℚ
  reasoning : String
  edgeCases : EdgeCases
  source : String
  deriving DecidableEq

/-- `createAIItinerary(request)`: analyze → generate → parse → enhance →
adjust.  The text-generation call is external; its outcome (the response
text, or the thrown error) is `gen`, and the enhancement pass's outcome is
`insights`.  The surrounding `try`/`catch` logs and *rethrows* on failure,
so a generation error propagates (`Except.error`). -/
def createAIItinerary (env : Env) (gen : Except String String)
    (insights : Except String Insights) (r : TravelRequest) : Except String AIResult :=
  let edgeCases := analyzeEdgeCases r
  match gen with
  | .error e => .error e
  | .ok itineraryText =>
      let itinerary := parseItineraryResponse env itineraryText r
      let enhancedItinerary := enhanceWithAIInsights itinerary insights
      let finalItinerary := applyEdgeCaseHandling enhancedItinerary edgeCases
      .ok { itinerary := finalItinerary.itinerary,
            totalCost := finalItinerary.totalCost,
            budgetBreakdown := finalItinerary.budgetBreakdown,
            recommendations := finalItinerary.recommendations,
            warnings := finalItinerary.warnings,
            alternatives := finalItinerary.alternatives,
            confidence := finalItinerary.confidence,
            reasoning := finalItinerary.reasoning,
            edgeCases := edgeCases,
            source := "ai" }

end AIPlannerService

open AIPlannerService

/-- A concrete resolved destination used by the concrete test requests. -/
def destX : Destination :=
  { name := "Paris", country := "France", description := "City of lights",
    climate := "temperate", imageUrl := "img.jpg", bestMonths := [5, 6],
    coordinates := (48, 2) }

/-- A concrete travel request (3 days, 2 travelers, climate preference `any`). -/
def reqX : TravelRequest :=
  { budget := 1000, duration := 3, travelers := 2, interests := ["art"],
    travelStyle := "relaxed", groupType := "couple", pace := "moderate",
    accessibility := [], dietaryRestrictions := [], climate := "any",
    departureDate := "2026-05-01", destination := destX }

/-- A concrete planner environment whose `JSON.parse` throws on every input. -/
def envX : Env :=
  { nowMs := 0, todayStr := "2026-01-01", nowIso := "2026-01-01T00:00:00.000Z",
    dateAdd := fun _ s => s, randWeather := fun _ => 0,
    randPrice := fun _ _ => 0, randCost := fun _ => 0,
    jsonParse := fun _ => none }

/-- The view of `JSON.parse('\x7b"itinerary": 5\x7d')`: an `itinerary` field that
is present but not an array. -/
def parsedNotArray : ParsedJson :=
  { itinerary := .notArray, totalCost := none, budgetBreakdown := none,
    recommendations := none, warnings := none, alternatives := none }

/-- `envX` with a `JSON.parse` that decodes to `parsedNotArray`. -/
def envNA : Env := { envX with jsonParse := fun _ => some parsedNotArray }

/-- The view of `JSON.parse('\x7b"itinerary": []\x7d')`: an empty day array,
which the validator accepts. -/
def parsedEmptyItinerary : ParsedJson :=
  { itinerary := .arr [], totalCost := none, budgetBreakdown := none,
    recommendations := none, warnings := none, alternatives := none }

/-- `envX` with a `JSON.parse` that decodes to `parsedEmptyItinerary`. -/
def envOK : Env := { envX with jsonParse := fun _ => some parsedEmptyItinerary }

/-- The plan the validator produces from `parsedEmptyItinerary`. -/
def planEmptyOK : Plan :=
  { itinerary := [], totalCost := 0,
    budgetBreakdown :=
      { accommodation := 0, activities := 0, meals := 0, transportation := 0,
        miscellaneous := 0 },
    recommendations := [], warnings := [], alternatives := [],
    confidence := 9/10,
    reasoning := "AI-generated itinerary with validation and enhancement" }

/-- Claim C1 counterexample: on a failed generation call (`network error`
thrown before any text was produced) `createAIItinerary` rethrows the error
instead of returning a templated fallback itinerary — the error propagates
to the caller. -/
theorem C1_counterexample :
    createAIItinerary envX (.error "network error") (.error "insights skipped") reqX
      = .error "network error" := rfl

/-- Claim C1 (amended): when the generation call itself fails before any
text was produced, `createAIItinerary` rethrows the error to its caller;
the fully templated fallback itinerary — one generic exploration activity
per requested day, default meals and transportation, confidence 0.5, and a
day count equal to the requested duration — is produced (without throwing)
only when generated text exists but its JSON parsing or validation throws. -/
theorem C1_generation_failure :
    (∀ (env : Env) (e : String) (ins : Except String Insights) (r : TravelRequest),
      createAIItinerary env (.error e) ins r = .error e)
    ∧
    (∀ (env : Env) (r : TravelRequest),
      (createFallbackItinerary env r).itinerary.length = r.duration ∧
      (createFallbackItinerary env r).confidence = 1/2 ∧
      (∀ d ∈ (createFallbackItinerary env r).itinerary,
        d.activities.length = 1 ∧
        (∀ s ∈ d.activities, s.activity.category = "exploration") ∧
        d.meals = generateDefaultMeals ∧
        d.transportation = generateDefaultTransportation))
    ∧
    (∀ (env : Env) (text : String) (r : TravelRequest) (js : String),
      jsonMatch text = some js → env.jsonParse js = none →
      parseItineraryResponse env text r = createFallbackItinerary env r) := by
  refine ⟨?_, ?_, ?_⟩
  · intro env e ins r
    rfl
  · intro env r
    refine ⟨?_, rfl, ?_⟩
    · simp [createFallbackItinerary]
    · intro d hd
      simp only [createFallbackItinerary] at hd
      rcases List.mem_map.1 hd with ⟨i, _, rfl⟩
      refine ⟨rfl, ?_, rfl, rfl⟩
      intro s hs
      rcases List.mem_singleton.1 hs with rfl
      rfl
  · intro env text r js h1 h2
    simp only [parseItineraryResponse, h1, h2]

/-- Claim C1 witness: the amended behaviour at concrete inputs — the
generation error propagates unchanged, the templated fallback for the
3-day request has 3 days and confidence 0.5, and a brace-matched but
unparseable response yields exactly the templated fallback. -/
theorem C1_witness :
    createAIItinerary envX (.error "timeout") (.error "enhance failed") reqX
      = .error "timeout" ∧
    (createFallbackItinerary envX reqX).itinerary.length = 3 ∧
    (createFallbackItinerary envX reqX).confidence = 1/2 ∧
    parseItineraryResponse envX "\x7b bad \x7d" reqX = createFallbackItinerary envX reqX := by
  refine ⟨?_, ?_, ?_, ?_⟩
  · exact C1_generation_failure.1 envX "timeout" (.error "enhance failed") reqX
  · exact (C1_generation_failure.2.1 envX reqX).1
  · exact (C1_generation_failure.2.1 envX reqX).2.1
  · exact C1_generation_failure.2.2 envX "\x7b bad \x7d" reqX "\x7b bad \x7d" rfl rfl

/-- Claim C2 counterexample: a response whose brace-delimited substring
decodes to an `itinerary` field that is not an array (shape-validation
failure) yields the templated fallback with confidence 0.5, not the
heuristic plain-text tier with confidence 0.7. -/
theorem C2_counterexample :
    (parseItineraryResponse envNA "\x7b\"itinerary\": 5\x7d" reqX).confidence = 1/2 ∧
    ¬ ((1 : ℚ)/2 = 7/10) := by
  constructor
  · rfl
  · norm_num

/-- Claim C2 (amended): `parseItineraryResponse` is total (never throws);
when the response has no brace-delimited substring it falls back to
heuristic plain-text parsing with confidence exactly 0.7; when a
brace-delimited substring exists but `JSON.parse` throws, or the decoded
JSON fails validation/enhancement (`itinerary` missing or not an array —
an empty array is accepted — or computing a day's duration throws), the
templated fallback with confidence exactly 0.5 is returned; a successfully
validated JSON yields the validator's plan with confidence exactly 0.9. -/
theorem C2_parse_confidence :
    (∀ (env : Env) (text : String) (r : TravelRequest),
      jsonMatch text = none →
      parseItineraryResponse env text r = createStructuredItineraryFromText env text r ∧
      (createStructuredItineraryFromText env text r).confidence = 7/10)
    ∧
    (∀ (env : Env) (text : String) (r : TravelRequest) (js : String),
      jsonMatch text = some js → env.jsonParse js = none →
      (parseItineraryResponse env text r).confidence = 1/2)
    ∧
    (∀ (env : Env) (text : String) (r : TravelRequest) (js : String) (p : ParsedJson),
      jsonMatch text = some js → env.jsonParse js = some p →
      validateAndEnhanceItinerary env p r = none →
      (parseItineraryResponse env text r).confidence = 1/2)
    ∧
    (∀ (env : Env) (text : String) (r : TravelRequest) (js : String) (p : ParsedJson)
        (plan : Plan),
      jsonMatch text = some js → env.jsonParse js = some p →
      validateAndEnhanceItinerary env p r = some plan →
      parseItineraryResponse env text r = plan ∧ plan.confidence = 9/10) := by
  refine ⟨?_, ?_, ?_, ?_⟩
  · intro env text r h
    exact ⟨by simp only [parseItineraryResponse, h], rfl⟩
  · intro env text r js h1 h2
    simp only [parseItineraryResponse, h1, h2]
    rfl
  · intro env text r js p h1 h2 h3
    simp only [parseItineraryResponse, h1, h2, h3]
    rfl
  · intro env text r js p plan h1 h2 h3
    refine ⟨by simp only [parseItineraryResponse, h1, h2, h3], ?_⟩
    unfold validateAndEnhanceItinerary at h3
    split at h3
    · split at h3
      · exact absurd h3 (by simp)
      · injection h3 with hpl
        rw [← hpl]
    · exact absurd h3 (by simp)

theorem validate_emptyItinerary :
    validateAndEnhanceItinerary envOK parsedEmptyItinerary reqX = some planEmptyOK := by
  show some ({ itinerary := ([] : List ItineraryDay),
               totalCost := jsOrQ none (calculateTotalCost []),
               budgetBreakdown := Option.getD none (calculateBudgetBreakdown []),
               recommendations := Option.getD none [],
               warnings := Option.getD none [],
               alternatives := Option.getD none [],
               confidence := 9/10,
               reasoning := "AI-generated itinerary with validation and enhancement" } :
      Plan)
    = some planEmptyOK
  simp only [planEmptyOK, jsOrQ, calculateTotalCost, calculateBudgetBreakdown,
    Option.getD, List.foldl_nil, Option.some.injEq, Plan.mk.injEq,
    BudgetBreakdown.mk.injEq]
  norm_num

/-- Claim C2 witness: the four tiers at concrete inputs — brace-less text
gives the heuristic 0.7 plan, an unparseable brace substring gives 0.5, a
non-array `itinerary` gives 0.5, and an accepted empty-array `itinerary`
gives the 0.9 validator plan. -/
theorem C2_witness :
    parseItineraryResponse envX "a plain day 1 answer" reqX
      = createStructuredItineraryFromText envX "a plain day 1 answer" reqX ∧
    (parseItineraryResponse envX "\x7b bad \x7d" reqX).confidence = 1/2 ∧
    (parseItineraryResponse envNA "\x7b\"itinerary\": 5\x7d" reqX).confidence = 1/2 ∧
    parseItineraryResponse envOK "\x7b\"itinerary\": []\x7d" reqX = planEmptyOK ∧
    planEmptyOK.confidence = 9/10 := by
  refine ⟨?_, ?_, ?_, ?_, ?_⟩
  · exact (C2_parse_confidence.1 envX "a plain day 1 answer" reqX rfl).1
  · exact C2_parse_confidence.2.1 envX "\x7b bad \x7d" reqX "\x7b bad \x7d" rfl rfl
  · exact C2_parse_confidence.2.2.1 envNA "\x7b\"itinerary\": 5\x7d" reqX
      "\x7b\"itinerary\": 5\x7d" parsedNotArray rfl rfl rfl
  · exact (C2_parse_confidence.2.2.2 envOK "\x7b\"itinerary\": []\x7d" reqX
      "\x7b\"itinerary\": []\x7d" parsedEmptyItinerary planEmptyOK rfl rfl validate_emptyItinerary).1
  · exact (C2_parse_confidence.2.2.2 envOK "\x7b\"itinerary\": []\x7d" reqX
      "\x7b\"itinerary\": []\x7d" parsedEmptyItinerary planEmptyOK rfl rfl validate_emptyItinerary).2

/-- A concrete activity slot with price 100. -/
def slot100 : ActivitySlot :=
  { activity :=
      { id := "a1", name := "Tour", description := "Guided tour", duration := 2,
        price := 100, category := "cultural", rating := 9/2, imageUrl := "i.jpg" },
    startTime := "09:00", endTime := "12:00", travelTime := 0,
    travelMethod := "Walking", notes := "" }

/-- A concrete day with one 100-priced activity and `estimatedCost` 100. -/
def day100 : ItineraryDay :=
  { day := 1, date := "2026-05-01",
    weather := generateMockWeather envX "temperate" 0,
    activities := [slot100], meals := [], transportation := [],
    accommodation := generateMockAccommodation envX reqX,
    notes := "", estimatedCost := 100, estimatedDuration := 2 }

/-- A concrete plan around `day100`, with `totalCost` consistent with its
day list (`totalCost = Σ estimatedCost = 100`). -/
def plan100 : Plan :=
  { itinerary := [day100], totalCost := 100,
    budgetBreakdown := calculateBudgetBreakdown [day100],
    recommendations := [], warnings := [], alternatives := [],
    confidence := 9/10, reasoning := "" }

/-- A detected budget conflict, as `analyzeEdgeCases` produces it. -/
def bcX : BudgetConflict :=
  { detected := true, suggestions := budgetSuggestions, alternatives := [] }

/-- Claim C3: `optimizeForBudget` floors every activity price to 70% (the
budget-breakdown activity component drops from 100 to 70), but the
recomputed `totalCost` sums the days' `estimatedCost` fields, which the
price reduction never touches — so `totalCost` stays exactly 100 instead of
strictly decreasing, contradicting the specified post-adjustment decrease. -/
theorem C3_totalCost_unchanged :
    (optimizeForBudget plan100 bcX).totalCost = 100 ∧
    plan100.totalCost = 100 ∧
    slot100.activity.price = 100 ∧
    (optimizeForBudget plan100 bcX).budgetBreakdown.activities = 70 ∧
    plan100.budgetBreakdown.activities = 100 := by
  refine ⟨?_, rfl, rfl, ?_, ?_⟩
  · simp only [optimizeForBudget, calculateTotalCost, plan100, day100,
      List.map_cons, List.map_nil, List.foldl_cons, List.foldl_nil]
    norm_num
  · simp only [optimizeForBudget, calculateBudgetBreakdown, plan100, day100, slot100,
      List.map_cons, List.map_nil, List.foldl_cons, List.foldl_nil]
    norm_num
  · simp only [plan100, calculateBudgetBreakdown, day100, slot100,
      List.foldl_cons, List.foldl_nil]
    norm_num

/-- The 22-day and 2-day variants of the concrete request. -/
def req22 : TravelRequest := { reqX with duration := 22 }

def req2d : TravelRequest := { reqX with duration := 2 }

/-- A concrete day with two activity slots. -/
def dayC4 : ItineraryDay := { day100 with activities := [slot100, slot100] }

/-- A concrete plan with one 2-activity day and one recommendation. -/
def planC4 : Plan :=
  { itinerary := [dayC4], totalCost := 100,
    budgetBreakdown := calculateBudgetBreakdown [dayC4],
    recommendations := ["keep"], warnings := [], alternatives := [],
    confidence := 9/10, reasoning := "" }

/-- Claim C4: for a detected long-duration conflict (duration 22), the
reasoning string produced by `analyzeEdgeCases` is
`"Long trips benefit from slower pace and deeper cultural immersion"`, and
the case-sensitive `includes('long')` test in `adaptForDuration` does not
match its capital `L` — the long branch is dead, so the plan is returned
entirely unchanged and no immersive-experience recommendations are
appended; the short branch (duration 2) works as specified, truncating each
day to one activity slot. -/
theorem C4_long_branch_dead :
    (analyzeEdgeCases req22).durationConflict.detected = true ∧
    (analyzeEdgeCases req22).durationConflict.reasoning = longTripReasoning ∧
    strIncludes longTripReasoning "long" = false ∧
    adaptForDuration planC4 (analyzeEdgeCases req22).durationConflict = planC4 ∧
    (analyzeEdgeCases req2d).durationConflict.detected = true ∧
    (adaptForDuration planC4 (analyzeEdgeCases req2d).durationConflict).itinerary.map
      (fun d => d.activities.length) = [1] := by
  exact ⟨rfl, rfl, rfl, rfl, rfl, rfl⟩

/-- Claim C9: `analyzeEdgeCases` is pure and deterministic; a request whose
budget is at least 1.2 times the linear cost estimate, whose destination
climate matches the requested climate (or whose requested climate is
`any`), and whose duration lies in `[3, 21]` raises none of the three
conflict flags; and exactly one of short (duration < 3), long
(duration > 21), or no duration conflict applies. -/
theorem C9_analyze_pure_flags :
    (∀ r₁ r₂ : TravelRequest, r₁ = r₂ → analyzeEdgeCases r₁ = analyzeEdgeCases r₂)
    ∧
    (∀ r : TravelRequest,
      r.budget ≥ (12/10) * estimateTripCost r →
      3 ≤ r.duration → r.duration ≤ 21 →
      (r.climate = "any" ∨ r.destination.climate = r.climate) →
      (analyzeEdgeCases r).budgetConflict.detected = false ∧
      (analyzeEdgeCases r).durationConflict.detected = false ∧
      (analyzeEdgeCases r).climateConflict.detected = false)
    ∧
    (∀ r : TravelRequest,
      (r.duration < 3 →
        (analyzeEdgeCases r).durationConflict.detected = true ∧
        (analyzeEdgeCases r).durationConflict.reasoning = shortTripReasoning) ∧
      (r.duration > 21 →
        (analyzeEdgeCases r).durationConflict.detected = true ∧
        (analyzeEdgeCases r).durationConflict.reasoning = longTripReasoning) ∧
      (3 ≤ r.duration → r.duration ≤ 21 →
        (analyzeEdgeCases r).durationConflict.detected = false) ∧
      ¬ (r.duration < 3 ∧ r.duration > 21)) := by
  refine ⟨?_, ?_, ?_⟩
  · intro r₁ r₂ h
    rw [h]
  · intro r hb hd3 hd21 hcl
    have hq3 : (3 : ℚ) ≤ (r.duration : ℚ) := by exact_mod_cast hd3
    have hq0 : (0 : ℚ) ≤ (r.travelers : ℚ) := by positivity
    have hbudget : ¬ (estimateTripCost r > r.budget * (12/10)) := by
      rw [not_lt]
      unfold estimateTripCost at hb ⊢
      linarith
    have hdur1 : ¬ (r.duration < 3) := by omega
    have hdur2 : ¬ (r.duration > 21) := by omega
    have hclim : ¬ (r.climate ≠ "any" ∧ r.destination.climate ≠ r.climate) := by
      rcases hcl with h | h
      · intro hc
        exact hc.1 h
      · intro hc
        exact hc.2 h
    refine ⟨?_, ?_, ?_⟩
    · simp only [analyzeEdgeCases]
      rw [if_neg hbudget]
    · simp only [analyzeEdgeCases]
      rw [if_neg hdur1, if_neg hdur2]
    · simp only [analyzeEdgeCases]
      rw [if_neg hclim]
  · intro r
    refine ⟨?_, ?_, ?_, ?_⟩
    · intro h
      constructor
      · simp only [analyzeEdgeCases]
        rw [if_pos h]
      · simp only [analyzeEdgeCases]
        rw [if_pos h]
    · intro h
      have h1 : ¬ (r.duration < 3) := by omega
      constructor
      · simp only [analyzeEdgeCases]
        rw [if_neg h1, if_pos h]
      · simp only [analyzeEdgeCases]
        rw [if_neg h1, if_pos h]
    · intro h3 h21
      have h1 : ¬ (r.duration < 3) := by omega
      have h2 : ¬ (r.duration > 21) := by omega
      simp only [analyzeEdgeCases]
      rw [if_neg h1, if_neg h2]
    · omega

/-- A concrete feasible request: budget 300000 ≥ 1.2 × the estimate
(240550), duration 7 ∈ [3, 21], requested climate `any`. -/
def req9 : TravelRequest := { reqX with budget := 300000, duration := 7 }

/-- Claim C9 witness: the feasible request `req9` raises no flag, and its
duration falls in the no-conflict band of the trichotomy. -/
theorem C9_witness :
    (analyzeEdgeCases req9).budgetConflict.detected = false ∧
    (analyzeEdgeCases req9).durationConflict.detected = false ∧
    (analyzeEdgeCases req9).climateConflict.detected = false ∧
    ¬ (req9.duration < 3 ∧ req9.duration > 21) := by
  have hb : req9.budget ≥ (12/10) * estimateTripCost req9 := by
    simp only [req9, reqX, estimateTripCost]
    norm_num
  have h := C9_analyze_pure_flags.2.1 req9 hb (by decide) (by decide) (Or.inl rfl)
  exact ⟨h.1, h.2.1, h.2.2, (C9_analyze_pure_flags.2.2 req9).2.2.2⟩
